import Mathlib

/-!
# ShelfScan AI — verification of the inference-orchestration core

Shallow embedding of the ShelfScan backend (FastAPI + provider calls) and
proofs about its orchestration contracts.

Conventions of the embedding:
* Python values that flow through the pipeline (parsed JSON, dict rows,
  provider outputs) are modelled by `JValue`; Python `dict` rows produced by
  the database or by a service annotated `-> dict` are modelled as
  association lists (`PyDict`).
* External network calls (inference providers, TTS, storage, database
  statements) are oracles: their outcomes are fields of an environment
  record, and each Lean function mirrors the source's control flow over
  those outcomes.  A Python function that can raise is modelled with
  `Option` (`none` = an uncaught exception at that point).
* Machine arithmetic: Python 3 integers are unbounded (`Int`/`Nat`);
  true division is modelled exactly over `Rat`, with `Int.floor` for
  `int(...)` applied to non-negative values.  (CPython evaluates these in
  IEEE double precision; the spec's formulas are stated over exact
  rationals, which is what we verify.)
-/

/-- A JSON number as the exact decimal `mant * 10 ^ exp` (Python's ints have
`exp = 0`; floats keep their decimal digits exactly — CPython parses them
into IEEE doubles, an approximation no theorem below depends on). -/
structure JNum where
  mant : Int
  exp : Int
deriving DecidableEq

/-- A parsed JSON value, as produced by Python `json.loads`; `nan` / `inf`
mirror Python's acceptance of the `NaN` / `Infinity` / `-Infinity` literals. -/
inductive JValue where
  | null
  | bool (b : Bool)
  | num (n : JNum)
  | nan
  | inf (neg : Bool)
  | str (s : String)
  | arr (elems : List JValue)
  | obj (members : List (String × JValue))

/-- A Python integer as a JSON value. -/
def jnum (n : Int) : JValue := .num ⟨n, 0⟩

/-- The left brace character (written via its code point throughout). -/
def lbrace : Char := Char.ofNat 123

/-- The right brace character. -/
def rbrace : Char := Char.ofNat 125

/-- Python truthiness (`bool(x)`) of a parsed-JSON value. -/
def pyTruthy : JValue → Bool
  | .null => false
  | .bool b => b
  | .num n => decide (n.mant ≠ 0)
  | .nan => true
  | .inf _ => true
  | .str s => !s.isEmpty
  | .arr xs => !xs.isEmpty
  | .obj kvs => !kvs.isEmpty

/-- `isinstance(v, dict)`. -/
def JValue.isObj : JValue → Bool
  | .obj _ => true
  | _ => false

/-- `isinstance(v, str)`. -/
def JValue.isStr : JValue → Bool
  | .str _ => true
  | _ => false

/-- `v == "s"` for a Python value against a string literal. -/
def jeqStr (v : JValue) (s : String) : Bool :=
  match v with
  | .str t => t == s
  | _ => false

/-- A Python dict whose keys are strings (database rows, `store_info`,
`vision_data`, ...). -/
abbrev PyDict := List (String × JValue)

/-- `d.get(k)` on an association list (first binding wins; lists built by the
parser keep keys unique). Returns `none` when the key is absent. -/
def objGet (kvs : PyDict) (k : String) : Option JValue :=
  match kvs.find? (fun kv => kv.1 == k) with
  | some kv => some kv.2
  | none => none

/-- `d.get(k, dflt)`. -/
def objGetD (kvs : PyDict) (k : String) (dflt : JValue) : JValue :=
  (objGet kvs k).getD dflt

/-- Python whitespace stripped by `str.strip()` (ASCII fragment; the rare
non-ASCII space code points are not exercised by this system's strings). -/
def isPySpace (c : Char) : Bool :=
  c == ' ' || c == '\t' || c == '\n' || c == '\r' || c == Char.ofNat 11 || c == Char.ofNat 12

/-- `s.strip()`. -/
def pyStrip (s : String) : String :=
  String.mk (((s.toList.dropWhile isPySpace).reverse.dropWhile isPySpace).reverse)

/-- `s[:n]` (Python slicing counts characters). -/
def pyTake (n : Nat) (s : String) : String :=
  String.mk (s.toList.take n)

/-- One pass of `re.sub(pat ++ "\n?", "", text)` for a literal pattern `pat`:
scan left to right, drop every occurrence of `pat` together with one
following newline if present.  `fuel` bounds the recursion (callers pass the
input length, which suffices since every step consumes at least one
character). -/
def subPatNl (pat : List Char) : Nat → List Char → List Char
  | 0, cs => cs
  | _ + 1, [] => []
  | fuel + 1, c :: rest =>
    if pat.isPrefixOf (c :: rest) then
      match (c :: rest).drop pat.length with
      | '\n' :: r2 => subPatNl pat fuel r2
      | r2 => subPatNl pat fuel r2
    else
      c :: subPatNl pat fuel rest

/-- `re.sub(pat, "", text)` for a literal pattern (no newline absorption). -/
def subPat (pat : List Char) : Nat → List Char → List Char
  | 0, cs => cs
  | _ + 1, [] => []
  | fuel + 1, c :: rest =>
    if pat.isPrefixOf (c :: rest) then
      subPat pat fuel ((c :: rest).drop pat.length)
    else
      c :: subPat pat fuel rest

/-- The preprocessing of `_parse_json` (debate_service.py lines 312-313):
`text.strip()`, remove every ```` ```json ```` fence (with optional newline),
remove every ```` ``` ```` fence, strip again. -/
def stripFences (s : String) : String :=
  let t1 := (pyStrip s).toList
  let t2 := subPatNl "```json".toList (t1.length + 1) t1
  let t3 := subPatNl "```".toList (t2.length + 1) t2
  pyStrip (String.mk t3)

/-! ## `json.loads` (RFC 8259 grammar plus Python's NaN/Infinity literals) -/

/-- JSON whitespace (`json.loads` skips exactly these). -/
def isJsonWs (c : Char) : Bool :=
  c == ' ' || c == '\t' || c == '\n' || c == '\r'

/-- Skip JSON whitespace. -/
def jskipWs (cs : List Char) : List Char := cs.dropWhile isJsonWs

/-- ASCII decimal digit. -/
def isAsciiDigit (c : Char) : Bool := '0' ≤ c && c ≤ '9'

/-- Split off a maximal run of digits. -/
def takeDigits : List Char → List Char × List Char
  | c :: cs =>
    if isAsciiDigit c then
      let (ds, r) := takeDigits cs
      (c :: ds, r)
    else ([], c :: cs)
  | [] => ([], [])

/-- Digits to a natural number. -/
def digitsToNat (ds : List Char) : Nat :=
  ds.foldl (fun acc c => acc * 10 + (c.toNat - '0'.toNat)) 0

/-- Hex digit value. -/
def hexVal (c : Char) : Option Nat :=
  let n := c.toNat
  if 48 ≤ n && n ≤ 57 then some (n - 48)
  else if 97 ≤ n && n ≤ 102 then some (n - 87)
  else if 65 ≤ n && n ≤ 70 then some (n - 55)
  else none

/-- Four hex digits to a code point. -/
def hex4 (a b c d : Char) : Option Nat :=
  match hexVal a, hexVal b, hexVal c, hexVal d with
  | some va, some vb, some vc, some vd =>
    some (((va * 16 + vb) * 16 + vc) * 16 + vd)
  | _, _, _, _ => none

/-- The single-character escapes accepted by `json.loads`. -/
def jsonUnescape (c : Char) : Option Char :=
  if c == '"' || c == '\\' || c == '/' then some c
  else if c == 'n' then some (Char.ofNat 10)
  else if c == 't' then some (Char.ofNat 9)
  else if c == 'r' then some (Char.ofNat 13)
  else if c == 'b' then some (Char.ofNat 8)
  else if c == 'f' then some (Char.ofNat 12)
  else none

/-- Parse the body of a JSON string after the opening quote.  Strict mode:
raw control characters are rejected; `\uXXXX` escapes combine surrogate
pairs (a lone surrogate, which Python would keep as a surrogate code unit,
is mapped through `Char.ofNat`).  Fuel-bounded (each step consumes at least
one character). -/
def parseJStringAux (acc : List Char) : Nat → List Char → Option (String × List Char)
  | 0, _ => none
  | _ + 1, '"' :: rest => some (String.mk acc.reverse, rest)
  | fuel + 1, '\\' :: 'u' :: a :: b :: c :: d :: rest =>
    match hex4 a b c d with
    | some n =>
      if 55296 ≤ n && n ≤ 56319 then
        match rest with
        | '\\' :: 'u' :: a2 :: b2 :: c2 :: d2 :: rest2 =>
          match hex4 a2 b2 c2 d2 with
          | some m =>
            if 56320 ≤ m && m ≤ 57343 then
              parseJStringAux (Char.ofNat (65536 + (n - 55296) * 1024 + (m - 56320)) :: acc) fuel rest2
            else
              parseJStringAux (Char.ofNat m :: Char.ofNat n :: acc) fuel rest2
          | none => none
        | _ => parseJStringAux (Char.ofNat n :: acc) fuel rest
      else
        parseJStringAux (Char.ofNat n :: acc) fuel rest
    | none => none
  | fuel + 1, '\\' :: e :: rest =>
    match jsonUnescape e with
    | some ch => parseJStringAux (ch :: acc) fuel rest
    | none => none
  | fuel + 1, c :: rest =>
    if c.toNat < 32 then none else parseJStringAux (c :: acc) fuel rest
  | _ + 1, [] => none

/-- Parse a JSON string body (entry point). -/
def parseJString (acc : List Char) (cs : List Char) : Option (String × List Char) :=
  parseJStringAux acc (cs.length + 1) cs

/-- Parse a JSON number after an optional leading minus has been noted.
Returns its exact decimal value.  Mirrors the grammar `json.loads` uses:
the integer part is `0` or starts with a nonzero digit, a fraction needs at
least one digit, an exponent needs at least one digit. -/
def parseJNumber (neg : Bool) (cs : List Char) : Option (JNum × List Char) :=
  let (intDs, cs1) :=
    match cs with
    | '0' :: r => (['0'], r)
    | _ => takeDigits cs
  if intDs.isEmpty then none
  else
    let (fracDs, cs2) :=
      match cs1 with
      | '.' :: r => takeDigits r
      | _ => ([], cs1)
    let fracBad := (match cs1 with | '.' :: _ => fracDs.isEmpty | _ => false)
    let (expOk, expNeg, expDs, cs3) :=
      match cs2 with
      | 'e' :: '+' :: r => let (ds, r2) := takeDigits r; (!ds.isEmpty, false, ds, r2)
      | 'e' :: '-' :: r => let (ds, r2) := takeDigits r; (!ds.isEmpty, true, ds, r2)
      | 'e' :: r => let (ds, r2) := takeDigits r; (!ds.isEmpty, false, ds, r2)
      | 'E' :: '+' :: r => let (ds, r2) := takeDigits r; (!ds.isEmpty, false, ds, r2)
      | 'E' :: '-' :: r => let (ds, r2) := takeDigits r; (!ds.isEmpty, true, ds, r2)
      | 'E' :: r => let (ds, r2) := takeDigits r; (!ds.isEmpty, false, ds, r2)
      | _ => (true, false, [], cs2)
    let expBad := (match cs2 with | 'e' :: _ => !expOk | 'E' :: _ => !expOk | _ => false)
    if fracBad || expBad then none
    else
      let mantNat := digitsToNat (intDs ++ fracDs)
      let mant : Int := if neg then -(mantNat : Int) else (mantNat : Int)
      let expv : Int :=
        (if expNeg then -(digitsToNat expDs : Int) else (digitsToNat expDs : Int))
          - (fracDs.length : Int)
      some (⟨mant, expv⟩, cs3)

/-- Insert a member into an object under construction, replacing the value
in place if the key already occurs (Python dict semantics: last duplicate
wins, original position kept). -/
def insertMember (kvs : List (String × JValue)) (k : String) (v : JValue) :
    List (String × JValue) :=
  match kvs with
  | [] => [(k, v)]
  | kv :: rest => if kv.1 == k then (k, v) :: rest else kv :: insertMember rest k v

mutual

/-- Parse one JSON value (fuel-bounded; each nesting level consumes at least
one character, so `length + 1` fuel never runs out). -/
def parseJValue : Nat → List Char → Option (JValue × List Char)
  | 0, _ => none
  | fuel + 1, cs =>
    match jskipWs cs with
    | [] => none
    | c :: rest =>
      if c == '"' then
        match parseJString [] rest with
        | some (s, r) => some (.str s, r)
        | none => none
      else if c == lbrace then
        parseJMembers fuel (jskipWs rest) true []
      else if c == '[' then
        parseJElems fuel (jskipWs rest) true []
      else if c == '-' then
        match rest with
        | 'I' :: 'n' :: 'f' :: 'i' :: 'n' :: 'i' :: 't' :: 'y' :: r => some (.inf true, r)
        | _ =>
          match parseJNumber true rest with
          | some (n, r) => some (.num n, r)
          | none => none
      else if c == 't' then
        match rest with
        | 'r' :: 'u' :: 'e' :: r => some (.bool true, r)
        | _ => none
      else if c == 'f' then
        match rest with
        | 'a' :: 'l' :: 's' :: 'e' :: r => some (.bool false, r)
        | _ => none
      else if c == 'n' then
        match rest with
        | 'u' :: 'l' :: 'l' :: r => some (.null, r)
        | _ => none
      else if c == 'N' then
        match rest with
        | 'a' :: 'N' :: r => some (.nan, r)
        | _ => none
      else if c == 'I' then
        match rest with
        | 'n' :: 'f' :: 'i' :: 'n' :: 'i' :: 't' :: 'y' :: r => some (.inf false, r)
        | _ => none
      else
        match parseJNumber false (c :: rest) with
        | some (n, r) => some (.num n, r)
        | none => none

/-- Parse object members; `first` is true right after the opening brace
(where `}` closes an empty object). -/
def parseJMembers : Nat → List Char → Bool → List (String × JValue) →
    Option (JValue × List Char)
  | 0, _, _, _ => none
  | fuel + 1, cs, first, acc =>
    match cs with
    | c :: rest =>
      if first && c == rbrace then some (.obj acc, rest)
      else if c == '"' then
        match parseJString [] rest with
        | some (k, r1) =>
          match jskipWs r1 with
          | ':' :: r2 =>
            match parseJValue fuel r2 with
            | some (v, r3) =>
              let acc2 := insertMember acc k v
              match jskipWs r3 with
              | c4 :: r4 =>
                if c4 == ',' then parseJMembers fuel (jskipWs r4) false acc2
                else if c4 == rbrace then some (.obj acc2, r4)
                else none
              | [] => none
            | none => none
          | _ => none
        | none => none
      else none
    | [] => none

/-- Parse array elements; `first` is true right after the opening bracket. -/
def parseJElems : Nat → List Char → Bool → List JValue →
    Option (JValue × List Char)
  | 0, _, _, _ => none
  | fuel + 1, cs, first, acc =>
    match cs with
    | c :: rest =>
      if first && c == ']' then some (.arr acc.reverse, rest)
      else
        match parseJValue fuel cs with
        | some (v, r1) =>
          match jskipWs r1 with
          | c2 :: r2 =>
            if c2 == ',' then parseJElems fuel r2 false (v :: acc)
            else if c2 == ']' then some (.arr (v :: acc).reverse, r2)
            else none
          | [] => none
        | none => none
    | [] => none

end

/-- `json.loads`: parse one value and require only whitespace after it. -/
def loads (s : String) : Option JValue :=
  let cs := s.toList
  match parseJValue (cs.length + 1) cs with
  | some (v, rest) => if (jskipWs rest).isEmpty then some v else none
  | none => none

/-- `re.search(r"\{.*\}", text, re.DOTALL)`: with the greedy `.*` this
matches from the first left brace to the last right brace, provided that
right brace comes after the left one. -/
def braceSub (s : String) : Option String :=
  let cs := s.toList
  match cs.findIdx? (fun c => c == lbrace) with
  | none => none
  | some i =>
    match cs.reverse.findIdx? (fun c => c == rbrace) with
    | none => none
    | some rj =>
      let j := cs.length - 1 - rj
      if i < j then some (String.mk ((cs.drop i).take (j - i + 1))) else none

/-- The parse-failure marker `{"raw": text[:500], "parse_error": True}`. -/
def parseMarker (t : String) : JValue :=
  .obj [("raw", .str (pyTake 500 t)), ("parse_error", .bool true)]

/-- `_parse_json` (debate_service.py lines 311-321): strip code fences, try a
direct `json.loads`, then the largest brace-delimited substring, then return
the marker object.  Total — the bare `except` clauses make the Python
function incapable of raising. -/
def _parse_json (s : String) : JValue :=
  let t := stripFences s
  match loads t with
  | some v => v
  | none =>
    match braceSub t with
    | some sub =>
      match loads sub with
      | some v => v
      | none => parseMarker t
    | none => parseMarker t

/-! ## `json.dumps` and `str()`

`json.dumps` with default options: separators `", "` and `": "`,
`ensure_ascii=True` (non-ASCII escaped as `\uXXXX`, with surrogate pairs
above the BMP).  Non-integer numbers are rendered as exact rationals — the
only divergence from CPython, whose floats print in shortest-double form;
no theorem below inspects a serialized float. -/

/-- Lowercase hex digit. -/
def hexDigit (n : Nat) : Char :=
  if n < 10 then Char.ofNat (48 + n) else Char.ofNat (87 + n)

/-- `\uXXXX` escape for a BMP code point. -/
def u4 (n : Nat) : String :=
  String.mk ['\\', 'u', hexDigit (n / 4096 % 16), hexDigit (n / 256 % 16),
             hexDigit (n / 16 % 16), hexDigit (n % 16)]

/-- Serialize one character of a JSON string (`json.dumps` defaults). -/
def dumpsChar (c : Char) : String :=
  if c == '"' then "\\\""
  else if c == '\\' then "\\\\"
  else if c == '\n' then "\\n"
  else if c == '\t' then "\\t"
  else if c == '\r' then "\\r"
  else if c == Char.ofNat 8 then "\\b"
  else if c == Char.ofNat 12 then "\\f"
  else if c.toNat < 32 then u4 c.toNat
  else if c.toNat < 127 then String.singleton c
  else if c.toNat < 65536 then u4 c.toNat
  else
    u4 (55296 + (c.toNat - 65536) / 1024) ++ u4 (56320 + (c.toNat - 65536) % 1024)

/-- Serialize a JSON string with quotes. -/
def dumpsStr (s : String) : String :=
  "\"" ++ String.join (s.toList.map dumpsChar) ++ "\""

/-- Decimal digits of a natural number (fuel-bounded own rendering, so the
kernel can evaluate it). -/
def natDigitsAux : Nat → Nat → List Char
  | 0, _ => []
  | _ + 1, 0 => []
  | fuel + 1, n => natDigitsAux fuel (n / 10) ++ [Char.ofNat (48 + n % 10)]

/-- `str(n)` for a natural number. -/
def natToString (n : Nat) : String :=
  if n == 0 then "0" else String.mk (natDigitsAux (n + 1) n)

/-- `str(n)` for an integer. -/
def intToString (i : Int) : String :=
  if i < 0 then "-" ++ natToString i.natAbs else natToString i.natAbs

/-- Serialize a number: integers match CPython exactly; decimals render with
their stored digits (CPython would print the shortest form of the IEEE
double — no theorem inspects a serialized float). -/
def dumpsNum (n : JNum) : String :=
  if n.exp == 0 then intToString n.mant
  else if n.exp < 0 then
    let k := n.exp.natAbs
    let ds0 := natToString n.mant.natAbs
    let ds := if ds0.length ≤ k then
        String.mk (List.replicate (k + 1 - ds0.length) '0') ++ ds0
      else ds0
    (if n.mant < 0 then "-" else "") ++ String.mk (ds.toList.take (ds.length - k))
      ++ "." ++ String.mk (ds.toList.drop (ds.length - k))
  else
    intToString n.mant ++ String.mk (List.replicate n.exp.natAbs '0') ++ ".0"

mutual

/-- `json.dumps(v)` with default options. -/
def jsonDumps : JValue → String
  | .null => "null"
  | .bool b => if b then "true" else "false"
  | .num n => dumpsNum n
  | .nan => "NaN"
  | .inf neg => if neg then "-Infinity" else "Infinity"
  | .str s => dumpsStr s
  | .arr xs => "[" ++ dumpsElems xs ++ "]"
  | .obj kvs => String.singleton lbrace ++ dumpsMembers kvs ++ String.singleton rbrace

/-- Array elements joined by `", "`. -/
def dumpsElems : List JValue → String
  | [] => ""
  | [x] => jsonDumps x
  | x :: y :: xs => jsonDumps x ++ ", " ++ dumpsElems (y :: xs)

/-- Object members joined by `", "` with `": "` between key and value. -/
def dumpsMembers : List (String × JValue) → String
  | [] => ""
  | [(k, v)] => dumpsStr k ++ ": " ++ jsonDumps v
  | (k, v) :: m :: kvs => dumpsStr k ++ ": " ++ jsonDumps v ++ ", " ++ dumpsMembers (m :: kvs)

end

mutual

/-- Python `str(v)` for a parsed-JSON value (used by f-string interpolation).
Container and float rendering approximate CPython `repr`; only the string
case is inspected by any theorem. -/
def pyStr : JValue → String
  | .str s => s
  | v => pyRepr v

/-- Python `repr(v)` (approximation, see `pyStr`). -/
def pyRepr : JValue → String
  | .null => "None"
  | .bool b => if b then "True" else "False"
  | .num n => dumpsNum n
  | .nan => "nan"
  | .inf neg => if neg then "-inf" else "inf"
  | .str s => String.singleton (Char.ofNat 39) ++ s ++ String.singleton (Char.ofNat 39)
  | .arr xs => "[" ++ reprElems xs ++ "]"
  | .obj kvs => String.singleton lbrace ++ reprMembers kvs ++ String.singleton rbrace

/-- Elements of a list repr. -/
def reprElems : List JValue → String
  | [] => ""
  | [x] => pyRepr x
  | x :: y :: xs => pyRepr x ++ ", " ++ reprElems (y :: xs)

/-- Members of a dict repr. -/
def reprMembers : List (String × JValue) → String
  | [] => ""
  | [(k, v)] => pyRepr (.str k) ++ ": " ++ pyRepr v
  | (k, v) :: m :: kvs => pyRepr (.str k) ++ ": " ++ pyRepr v ++ ", " ++ reprMembers (m :: kvs)

end

/-- Python iteration `for p in v`: lists yield their elements, strings their
characters, dicts their keys; other values raise `TypeError` (`none`). -/
def pyIterate : JValue → Option (List JValue)
  | .arr xs => some xs
  | .str s => some (s.toList.map fun c => .str (String.singleton c))
  | .obj kvs => some (kvs.map fun kv => .str kv.1)
  | _ => none

/-- `", ".join(v[:3])`: slicing raises `TypeError` on non-sequences, and
`join` raises on a non-string element; a plain string slices to its first
three characters, which join as one-character strings. -/
def pySliceJoin3 : JValue → Option String
  | .arr xs =>
    let first3 := xs.take 3
    if first3.all (·.isStr) then
      some (String.intercalate ", " (first3.map fun v =>
        match v with | .str s => s | _ => ""))
    else none
  | .str s => some (String.intercalate ", " ((s.toList.take 3).map String.singleton))
  | _ => none

/-! ## Debate service (`debate_service.py`)

Provider calls are oracles.  `CallOutcome.failure` covers an exception
raised during the call **and** a non-200 HTTP status — both make the Python
wrapper return `None` (or take its `except` branch); `CallOutcome.success c`
is a 200 response whose extracted message text is `c`.  The prompt strings
built from the inputs are passed to the providers but never inspected by
the callers, so they are not materialized here.  The Python result dicts
also carry an `"error": str(e)` diagnostic on fallback paths; it is read by
nothing downstream and is omitted from the records. -/

/-- Outcome of one external inference call. -/
inductive CallOutcome where
  | failure
  | success (content : String)

/-- Oracle outcomes for every provider call `run_ai_debate` can make.  The
`*Key` booleans are the truthiness of the corresponding
`settings.*_API_KEY` strings (empty ⇒ unconfigured). -/
structure DebateEnv where
  presenter : CallOutcome
  openaiKey : Bool
  gpt4o : CallOutcome
  groqKey : Bool
  groq : CallOutcome
  togetherKey : Bool
  together : CallOutcome
  geminiCritic : CallOutcome
  decider : CallOutcome

/-- One agent's result record (the dicts built in `debate_service.py`). -/
structure AgentResult where
  agent : String
  model : String
  atype : String
  output : JValue
  confidence : JValue

/-- The decider's result record additionally carries `final_hindi_text`. -/
structure DeciderResult where
  agent : String
  model : String
  atype : String
  output : JValue
  final_hindi_text : JValue
  confidence : JValue

/-- `_fallback_presenter` (lines 324-327): deterministic local summary of
the low-stock products.  `none` models the `TypeError`/`AttributeError`
raised when `vision_data["products"]` is present but not a list of dicts
(the comprehension iterates it and calls `.get` on every element). -/
def _fallback_presenter (vd : PyDict) : Option JValue := do
  let products := objGetD vd "products" (.arr [])
  let items ← pyIterate products
  if items.all (·.isObj) then
    let urgents := items.filter fun p =>
      match p with
      | .obj kvs =>
        jeqStr (objGetD kvs "stock_level" .null) "critical"
          || jeqStr (objGetD kvs "stock_level" .null) "low"
      | _ => false
    some (.obj
      [("priority_restocks", .arr ((urgents.take 5).map fun p =>
        match p with
        | .obj kvs => .obj
          [("product", objGetD kvs "name" (objGetD kvs "product_name" (.str "Unknown"))),
           ("current_stock", objGetD kvs "stock_level" .null),
           ("units_to_order", jnum 6),
           ("reason", .str "Low stock"),
           ("estimated_cost_inr", jnum 150)]
        | _ => .null)),
       ("confidence_score", jnum 58),
       ("reasoning", .str "Fallback — check Gemini API key")])
  else none

/-- `run_presenter` (lines 95-112).  On a successful call the reply is
normalized; a non-dict normalization makes `parsed.get` raise inside the
`try`, which lands in the same fallback branch as a failed call. -/
def run_presenter (env : DebateEnv) (vd : PyDict) (_st : PyDict) : Option AgentResult :=
  match env.presenter with
  | .success c =>
    match _parse_json c with
    | .obj kvs =>
      some { agent := "Gemini 1.5 Pro", model := "gemini-1.5-pro", atype := "presenter",
             output := .obj kvs, confidence := objGetD kvs "confidence_score" (jnum 82) }
    | _ =>
      (_fallback_presenter vd).map fun fb =>
        { agent := "Gemini 1.5 Pro", model := "gemini-1.5-pro", atype := "presenter",
          output := fb, confidence := jnum 60 }
  | .failure =>
    (_fallback_presenter vd).map fun fb =>
      { agent := "Gemini 1.5 Pro", model := "gemini-1.5-pro", atype := "presenter",
        output := fb, confidence := jnum 60 }

/-- `run_critic_gpt4o` (lines 115-143): `None` when unconfigured, when the
call fails or returns non-200, or when the normalized reply is not a dict
(`parsed.get` raises inside the `try`, caught, `None` returned). -/
def run_critic_gpt4o (env : DebateEnv) (_pout : JValue) (_vd : PyDict) (_pincode : JValue) :
    Option AgentResult :=
  if !env.openaiKey then none
  else
    match env.gpt4o with
    | .success c =>
      match _parse_json c with
      | .obj kvs =>
        some { agent := "GPT-4o Mini", model := "gpt-4o-mini", atype := "critic",
               output := .obj kvs, confidence := objGetD kvs "confidence_score" (jnum 80) }
      | _ => none
    | .failure => none

/-- `run_critic_groq` (lines 146-174). -/
def run_critic_groq (env : DebateEnv) (_pout : JValue) (_vd : PyDict) (_pincode : JValue) :
    Option AgentResult :=
  if !env.groqKey then none
  else
    match env.groq with
    | .success c =>
      match _parse_json c with
      | .obj kvs =>
        some { agent := "Groq LLaMA-3.1-70B", model := "llama-3.1-70b-versatile", atype := "critic",
               output := .obj kvs, confidence := objGetD kvs "confidence_score" (jnum 76) }
      | _ => none
    | .failure => none

/-- `run_critic_together` (lines 177-202). -/
def run_critic_together (env : DebateEnv) (_pout : JValue) (_vd : PyDict) (_pincode : JValue) :
    Option AgentResult :=
  if !env.togetherKey then none
  else
    match env.together with
    | .success c =>
      match _parse_json c with
      | .obj kvs =>
        some { agent := "Together Mixtral-8x7B", model := "mixtral-8x7b-instruct", atype := "critic",
               output := .obj kvs, confidence := objGetD kvs "confidence_score" (jnum 74) }
      | _ => none
    | .failure => none

/-- The synthesized default critique built in the `except` branch of
`run_critic_gemini_fallback` (line 216). -/
def defaultCriticOutput : JValue :=
  .obj [("accepted", .arr []), ("challenged", .arr []), ("rejected", .arr []),
        ("minimum_viable_restock", .arr []), ("risk_level", .str "medium"),
        ("confidence_score", jnum 55), ("critique_summary", .str "Fallback critique")]

/-- The synthesized default critic record (fallback identity, confidence 55). -/
def defaultCriticResult : AgentResult :=
  { agent := "Gemini Flash (Critic Fallback)", model := "gemini-1.5-flash", atype := "critic",
    output := defaultCriticOutput, confidence := jnum 55 }

/-- `run_critic_gemini_fallback` (lines 205-216): always returns a record —
the `except` branch synthesizes `defaultCriticResult`.  A successful call
whose reply does not normalize to a dict raises at `parsed.get` and takes
the same `except` branch. -/
def run_critic_gemini_fallback (env : DebateEnv) (_pout : JValue) (_vd : PyDict)
    (_pincode : JValue) : AgentResult :=
  match env.geminiCritic with
  | .success c =>
    match _parse_json c with
    | .obj kvs =>
      { agent := "Gemini Flash (Critic Fallback)", model := "gemini-1.5-flash", atype := "critic",
        output := .obj kvs, confidence := objGetD kvs "confidence_score" (jnum 70) }
    | _ => defaultCriticResult
  | .failure => defaultCriticResult

/-- The critic fallback chain of `run_ai_debate` (lines 258-277), with an
invocation trace: the second component lists, in order, the model id of
every candidate actually invoked.  Unconfigured candidates are skipped
without an invocation; the chain stops at the first candidate returning a
result; the Gemini Flash fallback runs only if all three candidates before
it produced none. -/
def run_critic_chain (env : DebateEnv) (pout : JValue) (vd : PyDict) (pincode : JValue) :
    AgentResult × List String :=
  let (c1, t1) : Option AgentResult × List String :=
    if env.openaiKey then (run_critic_gpt4o env pout vd pincode, ["gpt-4o-mini"])
    else (none, [])
  match c1 with
  | some c => (c, t1)
  | none =>
    let (c2, t2) : Option AgentResult × List String :=
      if env.groqKey then (run_critic_groq env pout vd pincode, t1 ++ ["llama-3.1-70b-versatile"])
      else (none, t1)
    match c2 with
    | some c => (c, t2)
    | none =>
      let (c3, t3) : Option AgentResult × List String :=
        if env.togetherKey then
          (run_critic_together env pout vd pincode, t2 ++ ["mixtral-8x7b-instruct"])
        else (none, t2)
      match c3 with
      | some c => (c, t3)
      | none =>
        (run_critic_gemini_fallback env pout vd pincode, t3 ++ ["gemini-1.5-flash"])

/-- `_fallback_decider` (lines 330-333).  `none` models the `TypeError`
raised by `vision_data.get("top_restock_urgent", [])[:3]` when the field is
present but not sliceable/joinable. -/
def _fallback_decider (vd : PyDict) (st : PyDict) : Option JValue := do
  let owner := objGetD st "owner_name" (.str "bhai")
  let j ← pySliceJoin3 (objGetD vd "top_restock_urgent" (.arr []))
  let items := if j == "" then "kuch zaruri items" else j
  some (.obj
    [("final_action_plan", .arr []),
     ("total_spend_today_inr", jnum 0),
     ("confidence_score", jnum 60),
     ("final_hindi_text", .str ("Namaskar " ++ pyStr owner ++ "! Aapki shelf mein " ++ items
        ++ " ka stock khatam ho raha hai. Aaj hi mangaiye!")),
     ("summary_english", .str "Restock urgent items identified by vision analysis.")])

/-- `run_decider` (lines 219-236); fallback analogous to the presenter. -/
def run_decider (env : DebateEnv) (_pout _cout : JValue) (vd st : PyDict) :
    Option DeciderResult :=
  match env.decider with
  | .success c =>
    match _parse_json c with
    | .obj kvs =>
      some { agent := "Gemini 1.5 Pro", model := "gemini-1.5-pro", atype := "decider",
             output := .obj kvs,
             final_hindi_text := objGetD kvs "final_hindi_text" (.str ""),
             confidence := objGetD kvs "confidence_score" (jnum 90) }
    | _ =>
      (_fallback_decider vd st).map fun fb =>
        { agent := "Gemini 1.5 Pro", model := "gemini-1.5-pro", atype := "decider",
          output := fb,
          final_hindi_text :=
            (match fb with | .obj kvs => objGetD kvs "final_hindi_text" (.str "") | _ => .str ""),
          confidence := jnum 60 }
  | .failure =>
    (_fallback_decider vd st).map fun fb =>
      { agent := "Gemini 1.5 Pro", model := "gemini-1.5-pro", atype := "decider",
        output := fb,
        final_hindi_text :=
          (match fb with | .obj kvs => objGetD kvs "final_hindi_text" (.str "") | _ => .str ""),
        confidence := jnum 60 }

/-- One persisted/returned debate round record. -/
structure DebateRoundRec where
  agent : String
  model : String
  rtype : String
  output : String
  reasoning : String
  confidence_score : JValue

/-- The round dict built in `run_ai_debate`: the output is serialized when
it is a dict and `str()`-ed otherwise. -/
def mkRound (agentName modelName rtype : String) (output : JValue) (reasoning : String)
    (conf : JValue) : DebateRoundRec :=
  { agent := agentName, model := modelName, rtype := rtype,
    output := if output.isObj then jsonDumps output else pyStr output,
    reasoning := reasoning, confidence_score := conf }

/-- The dict returned by `run_ai_debate` (line 308). -/
structure DebateResult where
  rounds : List DebateRoundRec
  final_recommendation : JValue
  presenter : JValue
  critic : JValue
  decider : JValue
  agents_used : List String
  critic_model_used : String

/-- Lines 298-305 of `run_ai_debate`: the final recommendation value — the
decider record's `final_hindi_text` if truthy, else the same key of the
decider's output dict, else the last-resort synthesized sentence.  `none`
models the `TypeError` from `urgent[:3]` / `join` on a malformed truthy
`top_restock_urgent`. -/
def finalHindi (d : DeciderResult) (vd st : PyDict) : Option JValue :=
  let fh0 := d.final_hindi_text
  let fh1 :=
    if pyTruthy fh0 then fh0
    else match d.output with
      | .obj kvs => objGetD kvs "final_hindi_text" (.str "")
      | _ => fh0
  if pyTruthy fh1 then some fh1
  else
    let urgent := objGetD vd "top_restock_urgent" (.arr [])
    (if pyTruthy urgent then pySliceJoin3 urgent else some "kuch zaruri items").map
      fun items =>
        let owner := objGetD st "owner_name" (.str "bhai")
        .str ("Namaskar " ++ pyStr owner ++ "! ShelfScan AI ne aapki shelf check ki. Aaj "
          ++ items ++ " zaroor mangaiye — stock bilkul khatam ho raha hai. "
          ++ "Yeh restock karne se aapki daily kamai mein ₹200-500 ka fark padega!")

/-- `run_ai_debate` (lines 239-308): presenter round, critic fallback chain,
decider round, then the final recommendation with its last-resort
synthesized sentence.  `none` models an uncaught exception (possible only
from the deterministic fallbacks or the synthesis join on malformed
`vision_data` fields — see `_fallback_presenter`, `_fallback_decider`,
`finalHindi`). -/
def run_ai_debate (env : DebateEnv) (vd : PyDict) (st : PyDict) (pincode : JValue) :
    Option DebateResult := do
  let p ← run_presenter env vd st
  let critic := (run_critic_chain env p.output vd pincode).1
  let d ← run_decider env p.output critic.output vd st
  let final ← finalHindi d vd st
  some { rounds :=
           [mkRound p.agent p.model "presenter" p.output
              "Gemini 1.5 Pro vision-context analysis" p.confidence,
            mkRound critic.agent critic.model "critic" critic.output
              "Economic stress-test of Presenter's plan" critic.confidence,
            mkRound d.agent d.model "decider" d.output
              "Final synthesis of Presenter + Critic debate" d.confidence],
         final_recommendation := final,
         presenter := p.output, critic := critic.output, decider := d.output,
         agents_used := [p.agent, critic.agent, d.agent],
         critic_model_used := critic.model }

/-! ## Voice service (`voice_service.py`) -/

/-- Oracle for one `generate_hindi_voice` run: the TTS request may raise, may
return a non-200 status, or may return audio whose Cloudinary upload either
raises (`audio none`) or yields a URL (`audio (some url)`). -/
inductive VoiceOutcome where
  | requestExn
  | badStatus
  | audio (upload : Option String)

/-- `str.split()` with no argument: split on whitespace runs, no empties. -/
def pySplitWs (s : String) : List String :=
  (s.toList.splitOnP isPySpace).map String.mk |>.filter (fun w => !w.isEmpty)

/-- `generate_hindi_voice` (voice_service.py lines 12-56): returns
`(audio_url, estimated_seconds)`; the blanket `except` returns `("", 0)` on
any failure, including a `TypeError` from `hindi_text.split()` when the text
is not a string.  Duration is `max(5, int((word_count / 150) * 60))`,
modelled over exact rationals. -/
def generate_hindi_voice (env : VoiceOutcome) (hindi_text : JValue)
    (_store_name : String) (_scan_id : Nat) : String × Int :=
  match env with
  | .requestExn => ("", 0)
  | .badStatus => ("", 0)
  | .audio upload =>
    match hindi_text with
    | .str s =>
      let wc := (pySplitWs s).length
      let est : Int := max 5 (Int.floor (((wc : Rat) / 150) * 60))
      match upload with
      | some url => (url, est)
      | none => ("", 0)
    | _ => ("", 0)

/-- True on the three speech-synthesis failure modes (provider exception,
non-200 status, audio-upload failure). -/
def voiceFailed : VoiceOutcome → Bool
  | .requestExn => true
  | .badStatus => true
  | .audio none => true
  | .audio (some _) => false

/-! ## Pipeline coordinator (`main.py`) -/

/-- `ok = sum(1 for p in products if p.get("stock_level") in ["ok", "overstocked"])`. -/
def stockOkCount (items : List JValue) : Nat :=
  (items.filter fun p =>
    match p with
    | .obj kvs =>
      jeqStr (objGetD kvs "stock_level" .null) "ok"
        || jeqStr (objGetD kvs "stock_level" .null) "overstocked"
    | _ => false).length

/-- `facing_ok = sum(1 for p in products if p.get("facing_correct", True))`. -/
def facingOkCount (items : List JValue) : Nat :=
  (items.filter fun p =>
    match p with
    | .obj kvs => pyTruthy (objGetD kvs "facing_correct" (.bool true))
    | _ => false).length

/-- `_calculate_health_score` (main.py lines 480-488).  `none` models the
exception raised when `products` is truthy but not a list of dicts (the
generator expressions call `.get` on every element); the caller's `except`
turns that into a failed scan. -/
def _calculate_health_score (vd : PyDict) : Option Int :=
  let products := objGetD vd "products" (.arr [])
  if !pyTruthy products then some 0
  else
    match pyIterate products with
    | none => none
    | some items =>
      if items.all (·.isObj) then
        let total := items.length
        let score : Int := Int.floor (((stockOkCount items : Rat) / total) * 70
          + ((facingOkCount items : Rat) / total) * 30)
        some (min 100 (max 0 score))
      else none

/-- The database writes `scan_shelf` can issue (reads are folded into the
environment).  Only the fields a theorem inspects are carried. -/
inductive DbOp where
  | insertScan (status : String)
  | insertProducts (count : Nat)
  | insertRound (agent : String) (rtype : String) (recommendation : String)
  | insertVoiceNote (url : String) (durationSeconds : Int)
  | updateScanCompleted (healthScore : Int) (voiceUrl : String)
  | updateScanFailed
  | updateStoreStats (healthScore : Int)
  | updateNeighborhood

/-- Outcome of the initial store lookup. -/
inductive StoreLookup where
  | raises
  | notFound
  | found (store : PyDict)

/-- Oracle outcomes for every fallible step of one `scan_shelf` request.
Booleans are `true` when the corresponding statement succeeds and `false`
when it raises.  `vision = none` covers `analyze_shelf_image` raising (and
the equivalent case of it returning a non-dict, which raises on the first
`.get` and reaches the same `except`). -/
structure ScanEnv where
  debate : DebateEnv
  voice : VoiceOutcome
  storeLookup : StoreLookup
  uploadOk : Bool
  scanInsertOk : Bool
  vision : Option PyDict
  productsInsertOk : Bool
  roundsInsertFailAt : Option (Fin 3)
  voiceInsertOk : Bool
  completeUpdateOk : Bool
  storeUpdateOk : Bool
  neighborhoodWrites : Bool
  failedUpdateOk : Bool

/-- HTTP-level result of `scan_shelf`. -/
inductive ScanResponse where
  | ok
  | httpError (code : Nat)

/-- The `except` block (main.py lines 274-283): mark the scan failed if its
row exists; the marking update is itself guarded by a bare `try`/`except`. -/
def failOps (env : ScanEnv) : List DbOp :=
  if env.failedUpdateOk then [DbOp.updateScanFailed] else []

/-- The `detected_products` persistence step (lines 176-191): gated on the
truthiness of `vision_data.get("products")`; building the row dicts iterates
the value and calls `.get` on every element, raising on malformed data.
Returns the ops on success, `none` on a raise. -/
def productsStep (env : ScanEnv) (vd : PyDict) : Option (List DbOp) :=
  if pyTruthy (objGetD vd "products" .null) then
    match pyIterate (objGetD vd "products" .null) with
    | some items =>
      if items.all (·.isObj) then
        if env.productsInsertOk then some [DbOp.insertProducts items.length] else none
      else none
    | none => none
  else some []

/-- `scan_shelf` (main.py lines 138-284): the full synchronous pipeline for
one scan, returning the HTTP outcome and the ordered list of database
writes.  The store id and the uploaded image are immaterial to control
flow and are not parameters; all branching is driven by `env`.  An insert
or update that raises is assumed to write nothing. -/
def scan_shelf (env : ScanEnv) : ScanResponse × List DbOp :=
  match env.storeLookup with
  | .raises => (.httpError 500, [])
  | .notFound => (.httpError 404, [])
  | .found store =>
    if !env.uploadOk then (.httpError 500, [])
    else if !env.scanInsertOk then (.httpError 500, [])
    else
      let ops0 := [DbOp.insertScan "processing"]
      match env.vision with
      | none => (.httpError 500, ops0 ++ failOps env)
      | some vd =>
        match productsStep env vd with
        | none => (.httpError 500, ops0 ++ failOps env)
        | some pOps =>
          let ops1 := ops0 ++ pOps
          let pincode := objGetD store "pincode" (.str "")
          match run_ai_debate env.debate vd store pincode with
          | none => (.httpError 500, ops1 ++ failOps env)
          | some dres =>
            let roundOps := dres.rounds.map fun r => DbOp.insertRound r.agent r.rtype r.output
            match env.roundsInsertFailAt with
            | some k => (.httpError 500, ops1 ++ roundOps.take k.val ++ failOps env)
            | none =>
              let ops2 := ops1 ++ roundOps
              let finalRec := dres.final_recommendation
              let (voice_url, voice_duration) :=
                generate_hindi_voice env.voice finalRec "" 0
              if !env.voiceInsertOk then (.httpError 500, ops2 ++ failOps env)
              else
                let ops3 := ops2 ++ [DbOp.insertVoiceNote voice_url voice_duration]
                match _calculate_health_score vd with
                | none => (.httpError 500, ops3 ++ failOps env)
                | some hs =>
                  if !env.completeUpdateOk then (.httpError 500, ops3 ++ failOps env)
                  else
                    let ops4 := ops3 ++ [DbOp.updateScanCompleted hs voice_url]
                    if !env.storeUpdateOk then (.httpError 500, ops4 ++ failOps env)
                    else
                      let ops5 := ops4 ++ [DbOp.updateStoreStats hs]
                      let ops6 := ops5 ++
                        (if env.neighborhoodWrites then [DbOp.updateNeighborhood] else [])
                      (.ok, ops6)

/-- The terminal status values written to the scan row, in order. -/
def terminalWrites (ops : List DbOp) : List String :=
  ops.filterMap fun op =>
    match op with
    | .updateScanCompleted _ _ => some "completed"
    | .updateScanFailed => some "failed"
    | _ => none

/-! ## WhatsApp webhook (`main.py` lines 560-635, `twilio_service.py`) -/

/-- `build_processing_twiml` (twilio_service.py lines 78-85): the fixed
acknowledgment returned while the background pipeline runs. -/
def build_processing_twiml : String :=
  "<?xml version=\"1.0\" encoding=\"UTF-8\"?>\n<Response>\n  <Message>\n    <Body>ShelfScan AI ne aapki shelf photo receive kar li! Analysis shuru ho raha hai... 30 seconds mein aapka report aayega.</Body>\n  </Message>\n</Response>"

/-- `str.replace(pat, "")` for a literal pattern. -/
def strRemoveAll (pat : String) (s : String) : String :=
  String.mk (subPat pat.toList (s.length + 1) s.toList)

/-- `s.lower()` (ASCII case folding; the greeting keywords are ASCII). -/
def pyLower (s : String) : String := String.mk (s.toList.map Char.toLower)

/-- `pat in s` (substring containment). -/
def pyIn (pat : String) (s : String) : Bool :=
  let p := pat.toList
  let cs := s.toList
  (List.range (cs.length + 1)).any fun i => p.isPrefixOf (cs.drop i)

/-- The parsed webhook form (Twilio POST).  `NumMedia` is the integer value
of the form field (Twilio always sends a decimal number; `form.get` defaults
it to 0), `MediaContentType0` carries its `"image/jpeg"` default. -/
structure TwilioForm where
  From : String
  NumMedia : Nat
  Body : String
  MediaUrl0 : String
  MediaContentType0 : String

/-- Operations the webhook handler performs on its synchronous path (before
returning the TwiML response).  The heavy-stage constructors exist so the
theorems can state their absence from that path. -/
inductive SyncOp where
  | insertInboundLog
  | visionCall
  | debateCall
  | speechCall

/-- A task handed to FastAPI `BackgroundTasks` (runs after the response). -/
inductive BgTask where
  | runWhatsappPipeline (fromNumber mediaUrl mediaType : String)

/-- The greeting classifier (line 590-591): any keyword substring, or an
empty body. -/
def greetMatch (body : String) : Bool :=
  ["hi", "hello", "hey", "help", "start", "scan", "namaste", "namaskar"].any
    (fun w => pyIn w body) || body == ""

/-- The greeting / help TwiML (lines 592-606). -/
def greetingTwiml : String :=
  "<?xml version=\"1.0\" encoding=\"UTF-8\"?>\n<Response><Message><Body>"
    ++ "Namaskar! Main ShelfScan AI hoon 🤖\n\nApni shelf ki photo bhejiye aur main 30 seconds mein bataunga:\n• Kya order karna chahiye\n• Kitna stock bacha hai\n• Kaisi shelf rearrange karein\n\nHindi voice note mein recommendation milega! 🎙️\n\nAgar aap naye hain toh pehle register karein:\n🔗 shelfscan.ai"
    ++ "</Body></Message></Response>"

/-- The unknown-text prompt TwiML (lines 609-613). -/
def promptImageTwiml : String :=
  "<?xml version=\"1.0\" encoding=\"UTF-8\"?>\n<Response><Message><Body>Shelf ki photo bhejiye — main analysis karunga! 📸</Body></Message></Response>"

/-- The missing-media retry TwiML (lines 620-624). -/
def retryImageTwiml : String :=
  "<?xml version=\"1.0\" encoding=\"UTF-8\"?>\n<Response><Message><Body>Image receive nahi hui. Please dobara try karein.</Body></Message></Response>"

/-- `whatsapp_webhook` (main.py lines 560-635): classify the inbound event,
log it (best effort), and either answer a text TwiML directly or enqueue the
pipeline as a background task and return the fixed processing
acknowledgment.  Returns (response body, synchronous operations in order,
background tasks enqueued). -/
def whatsapp_webhook (form : TwilioForm) : String × List SyncOp × List BgTask :=
  let from_number := strRemoveAll "whatsapp:" form.From
  let body_text := pyLower (pyStrip form.Body)
  let logOps := [SyncOp.insertInboundLog]
  if form.NumMedia == 0 then
    if greetMatch body_text then (greetingTwiml, logOps, [])
    else (promptImageTwiml, logOps, [])
  else
    let media_url := form.MediaUrl0
    let media_type := form.MediaContentType0
    if media_url == "" then (retryImageTwiml, logOps, [])
    else
      (build_processing_twiml, logOps,
        [BgTask.runWhatsappPipeline from_number media_url media_type])

/-! ## Registration validation (`models.py`, `main.py` lines 60-96)

Pydantic runs the field validators before the handler body; a validator
raising `ValueError` rejects the request with a 422 and the handler — hence
every database statement — never runs.  `re` caveats modelled faithfully:
under `re.match`, `$` also matches just before a single trailing newline;
`\d` is modelled as the ASCII digits (theorems quantify over ASCII inputs). -/

/-- Core of `^\d{6}$`. -/
def sixDigitCore (cs : List Char) : Bool :=
  cs.length == 6 && cs.all isAsciiDigit

/-- `re.match(r"^\d{6}$", v)`: exact match, or a match ending just before a
single trailing newline. -/
def pinRegexMatch (v : String) : Bool :=
  sixDigitCore v.toList
    || (v.toList.getLast? == some '\n' && sixDigitCore v.toList.dropLast)

/-- `validate_pincode` (models.py lines 33-37): `none` = `ValueError`. -/
def validate_pincode (v : String) : Option String :=
  if pinRegexMatch v then some v else none

/-- `re.sub(r"[\s\-\(\)]", "", v)`: drop whitespace, hyphens, parentheses. -/
def phoneClean (v : String) : String :=
  String.mk (v.toList.filter fun c => !(isPySpace c || c == '-' || c == '(' || c == ')'))

/-- Core of `^(\+91|91)?[6-9]\d{9}$`. -/
def phoneCore (cs : List Char) : Bool :=
  let tail10 (ds : List Char) : Bool :=
    ds.length == 10 && ds.all isAsciiDigit
      && (match ds with | d :: _ => '6' ≤ d && d ≤ '9' | [] => false)
  match cs with
  | '+' :: '9' :: '1' :: rest => tail10 rest
  | '9' :: '1' :: rest => tail10 rest || (tail10 ('9' :: '1' :: rest))
  | rest => tail10 rest

/-- `re.match(r"^(\+91|91)?[6-9]\d{9}$", clean)` with the trailing-newline
`$` semantics. -/
def phoneRegexMatch (v : String) : Bool :=
  phoneCore v.toList
    || (v.toList.getLast? == some '\n' && phoneCore v.toList.dropLast)

/-- `validate_phone` (models.py lines 21-31): `none` = `ValueError`;
otherwise the number normalized to `+91` form when possible. -/
def validate_phone (v : String) : Option String :=
  let clean := phoneClean v
  if !phoneRegexMatch clean then none
  else
    let digits := String.mk (clean.toList.filter isAsciiDigit)
    if digits.length == 10 then some ("+91" ++ digits)
    else if digits.length == 12 && digits.toList.take 2 == ['9', '1'] then
      some ("+" ++ digits)
    else some v

/-- The registration request fields the validators and handler touch. -/
structure RegisterInput where
  whatsapp_number : String
  pincode : String

/-- Database writes `register_store` can issue. -/
inductive RegWrite where
  | insertStore
  | insertNeighborhood

/-- Outcome of a registration request. -/
inductive RegResult where
  | created
  | validationError
  | conflict

/-- Oracle for the handler's reads: whether a store with this WhatsApp
number exists, and whether the pincode already has a neighborhood row
(`_init_neighborhood` inserts only when it does not, and swallows its own
errors). -/
structure RegisterEnv where
  existingWhatsapp : Bool
  neighborhoodExists : Bool

/-- `register_store` (main.py lines 60-96) behind pydantic validation:
validation failure rejects the request before the handler body, so with no
database access at all. -/
def register_store (env : RegisterEnv) (inp : RegisterInput) : RegResult × List RegWrite :=
  match validate_phone inp.whatsapp_number, validate_pincode inp.pincode with
  | some _, some _ =>
    if env.existingWhatsapp then (.conflict, [])
    else
      (.created,
        [RegWrite.insertStore] ++
          (if env.neighborhoodExists then [] else [RegWrite.insertNeighborhood]))
  | _, _ => (.validationError, [])

/-! ## Neighborhood aggregator (`aggregation_service.py`) -/

/-- One `detected_products` row as read by the aggregation query. -/
structure ProductRow where
  product_name : String
  brand : String
  category : String
  stock_level : String
  store_id : String
deriving DecidableEq

/-- One `neighborhood_demand` row.  The JSON-valued columns are stored as
their serialized text, exactly as the code writes them. -/
structure NRow where
  nid : Nat
  pincode : String
  city : String
  week_start : String
  total_stores_scanned : Nat
  top_categories : String
  stockout_products : String
  demand_signals : String
  updated_at : String
  created_at : String
deriving DecidableEq

/-- `collections.Counter(xs)` as (key, count) pairs in first-occurrence
order (Python dict iteration order). -/
def counterPairs (xs : List String) : List (String × Nat) :=
  xs.foldl (fun acc x =>
    if acc.any (fun kv => kv.1 == x) then
      acc.map (fun kv => if kv.1 == x then (kv.1, kv.2 + 1) else kv)
    else acc ++ [(x, 1)]) []

/-- Stable insertion by descending count (ties keep earlier-inserted first),
matching `Counter.most_common`. -/
def insertByCountDesc (kv : String × Nat) : List (String × Nat) → List (String × Nat)
  | [] => [kv]
  | h :: t => if kv.2 > h.2 then kv :: h :: t else h :: insertByCountDesc kv t

/-- `Counter(xs).most_common(n)`. -/
def mostCommon (n : Nat) (xs : List String) : List (String × Nat) :=
  ((counterPairs xs).foldl (fun acc kv => insertByCountDesc kv acc) []).take n

/-- Python `round(s / n * 100, 1)` for the aggregation rates, computed
exactly over integers (banker's rounding at the half; CPython computes it
over IEEE doubles): the result `k / 10` is stored as the decimal `⟨k, -1⟩`. -/
def rateRound1 (s n : Nat) : JNum :=
  let m := s * 1000
  let q := m / n
  let r := m % n
  let k := if 2 * r < n then q else if 2 * r > n then q + 1
    else if q % 2 == 0 then q else q + 1
  ⟨(k : Int), -1⟩

/-- A fresh row id for an insert. -/
def freshId (db : List NRow) : Nat := (db.map (·.nid)).foldl max 0 + 1

/-- Oracle input of one `_aggregate_pincode` run: the product rows returned
by the 7-day window query, and the run's wall-clock timestamp. -/
structure AggEnv where
  products : List ProductRow
  now : String

/-- The deterministic aggregate fields computed from the window's products
(lines 78-94), already serialized as the code stores them. -/
def aggFields (all_products : List ProductRow) : String × String × String :=
  let stockout_items := (all_products.filter (fun p => p.stock_level == "critical")).map (·.product_name)
  let low_items := (all_products.filter (fun p => p.stock_level == "low")).map (·.product_name)
  let categories := (all_products.filter (fun p => p.category != "")).map (·.category)
  let stockout_counts := mostCommon 10 stockout_items
  let category_counts := mostCommon 8 categories
  let top_categories := JValue.arr (category_counts.map fun kv =>
    .obj [("category", .str kv.1), ("count", jnum kv.2)])
  let stockout_products := JValue.arr (stockout_counts.map fun kv =>
    .obj [("product", .str kv.1), ("times_critical", jnum kv.2)])
  let demand_signals := JValue.obj
    [("total_products_scanned", jnum all_products.length),
     ("unique_products", jnum ((all_products.map (·.product_name)).eraseDups.length)),
     ("stockout_rate", .num (rateRound1 stockout_items.length all_products.length)),
     ("low_stock_rate", .num (rateRound1 low_items.length all_products.length)),
     ("top_stockouts", .arr ((stockout_counts.take 5).map fun kv => .str kv.1))]
  (jsonDumps top_categories, jsonDumps stockout_products, jsonDumps demand_signals)

/-- The `(pincode, week_start)` natural-key match used by the upsert query. -/
def nKeyMatch (pincode week_start : String) (r : NRow) : Bool :=
  r.pincode == pincode && r.week_start == week_start

/-- `_aggregate_pincode` (aggregation_service.py lines 61-124): compute the
weekly aggregates and upsert them into `neighborhood_demand` keyed by
`(pincode, week_start)` — update the first matching row in place, insert a
fresh row otherwise; no products in the window means no write at all. -/
def _aggregate_pincode (env : AggEnv) (pincode city : String) (store_ids : List String)
    (week_start : String) (db : List NRow) : List NRow :=
  if env.products.isEmpty then db
  else
    match db.find? (nKeyMatch pincode week_start) with
    | some row =>
      db.map fun r =>
        if r.nid == row.nid then
          { r with pincode := pincode, city := city, week_start := week_start,
                   total_stores_scanned := store_ids.length,
                   top_categories := (aggFields env.products).1,
                   stockout_products := (aggFields env.products).2.1,
                   demand_signals := (aggFields env.products).2.2,
                   updated_at := env.now }
        else r
    | none =>
      db ++ [{ nid := freshId db, pincode := pincode, city := city, week_start := week_start,
               total_stores_scanned := store_ids.length,
               top_categories := (aggFields env.products).1,
               stockout_products := (aggFields env.products).2.1,
               demand_signals := (aggFields env.products).2.2,
               updated_at := env.now, created_at := env.now }]

/-! ## Well-formedness of vision data

`run_ai_debate` can only raise from its deterministic fallbacks or the
synthesis join, and only when `vision_data["products"]` or
`vision_data["top_restock_urgent"]` is present with a malformed value.
These predicates capture exactly the shapes that cannot raise. -/

/-- `products`, when present, iterates to a list of dicts. -/
def productsWellFormed (vd : PyDict) : Bool :=
  match objGet vd "products" with
  | none => true
  | some v =>
    match pyIterate v with
    | some items => items.all (·.isObj)
    | none => false

/-- `top_restock_urgent`, when present, can be sliced and joined. -/
def urgentWellFormed (vd : PyDict) : Bool :=
  match objGet vd "top_restock_urgent" with
  | none => true
  | some u => (pySliceJoin3 u).isSome

/-- Vision data on which the debate pipeline cannot raise. -/
def visionOK (vd : PyDict) : Bool := productsWellFormed vd && urgentWellFormed vd

lemma pyTruthy_str_of_pos (s : String) (h : 0 < s.length) : pyTruthy (.str s) = true := by
  have he : s.isEmpty = false := by
    cases he : s.isEmpty with
    | false => rfl
    | true =>
      rw [(String.isEmpty_iff s).mp he] at h
      simp at h
  simp [pyTruthy, he]

lemma fallback_presenter_isSome (vd : PyDict) (h : productsWellFormed vd = true) :
    (_fallback_presenter vd).isSome = true := by
  cases hg : objGet vd "products" with
  | none => simp [_fallback_presenter, objGetD, hg, pyIterate]
  | some v =>
    simp only [productsWellFormed, hg] at h
    cases hi : pyIterate v with
    | none => simp [hi] at h
    | some items =>
      simp only [hi] at h
      rw [List.all_eq_true] at h
      simp [_fallback_presenter, objGetD, hg, hi]
      exact h

lemma fallback_decider_isSome (vd st : PyDict) (h : urgentWellFormed vd = true) :
    (_fallback_decider vd st).isSome = true := by
  cases hg : objGet vd "top_restock_urgent" with
  | none => simp [_fallback_decider, objGetD, hg, pySliceJoin3]
  | some u =>
    simp only [urgentWellFormed, hg] at h
    cases hj : pySliceJoin3 u with
    | none => simp [hj] at h
    | some j => simp [_fallback_decider, objGetD, hg, hj]

lemma run_presenter_isSome (env : DebateEnv) (vd st : PyDict)
    (h : productsWellFormed vd = true) :
    (run_presenter env vd st).isSome = true := by
  have hfb := fallback_presenter_isSome vd h
  unfold run_presenter
  cases env.presenter with
  | success c => cases hp : _parse_json c <;> simp [hp, hfb]
  | failure => simp [hfb]

lemma run_decider_isSome (env : DebateEnv) (po co : JValue) (vd st : PyDict)
    (h : urgentWellFormed vd = true) :
    (run_decider env po co vd st).isSome = true := by
  have hfb := fallback_decider_isSome vd st h
  unfold run_decider
  cases env.decider with
  | success c => cases hp : _parse_json c <;> simp [hp, hfb]
  | failure => simp [hfb]

lemma finalHindi_spec (d : DeciderResult) (vd st : PyDict)
    (h : urgentWellFormed vd = true) :
    ∃ f, finalHindi d vd st = some f ∧ pyTruthy f = true := by
  unfold finalHindi
  set fh1 := if pyTruthy d.final_hindi_text then d.final_hindi_text
    else match d.output with
      | .obj kvs => objGetD kvs "final_hindi_text" (.str "")
      | _ => d.final_hindi_text with hfh1
  cases ht : pyTruthy fh1 with
  | true => exact ⟨fh1, by simp [ht], ht⟩
  | false =>
    simp only [ht, Bool.false_eq_true, if_false]
    have hitems : (if pyTruthy (objGetD vd "top_restock_urgent" (.arr [])) then
        pySliceJoin3 (objGetD vd "top_restock_urgent" (.arr []))
      else some "kuch zaruri items").isSome = true := by
      cases hg : objGet vd "top_restock_urgent" with
      | none => simp [objGetD, hg, pyTruthy]
      | some u =>
        simp only [urgentWellFormed, hg] at h
        cases htu : pyTruthy u with
        | false => simp [objGetD, hg, htu]
        | true => simp [objGetD, hg, htu, h]
    obtain ⟨items, hit⟩ := Option.isSome_iff_exists.mp hitems
    refine ⟨_, by rw [hit]; rfl, ?_⟩
    apply pyTruthy_str_of_pos
    simp only [String.length_append]
    have : 0 < "Namaskar ".length := by decide
    omega

/-- Shared core of the orchestrator contract: on well-formed vision data the
debate never raises, always yields the three rounds in
presenter/critic/decider order, and a truthy final recommendation. -/
lemma run_ai_debate_total (env : DebateEnv) (vd st : PyDict) (pin : JValue)
    (h : visionOK vd = true) :
    ∃ r, run_ai_debate env vd st pin = some r ∧
      r.rounds.length = 3 ∧
      r.rounds.map (·.rtype) = ["presenter", "critic", "decider"] ∧
      pyTruthy r.final_recommendation = true := by
  have hpw : productsWellFormed vd = true := by
    have h' := h
    unfold visionOK at h'
    exact ((Bool.and_eq_true _ _).mp h').1
  have huw : urgentWellFormed vd = true := by
    have h' := h
    unfold visionOK at h'
    exact ((Bool.and_eq_true _ _).mp h').2
  obtain ⟨p, hpep⟩ := Option.isSome_iff_exists.mp (run_presenter_isSome env vd st hpw)
  obtain ⟨d, hded⟩ := Option.isSome_iff_exists.mp (run_decider_isSome env p.output
    (run_critic_chain env p.output vd pin).1.output vd st huw)
  obtain ⟨f, hff, hft⟩ := finalHindi_spec d vd st huw
  have hreq : run_ai_debate env vd st pin = some
      { rounds :=
          [mkRound p.agent p.model "presenter" p.output
             "Gemini 1.5 Pro vision-context analysis" p.confidence,
           mkRound (run_critic_chain env p.output vd pin).1.agent
             (run_critic_chain env p.output vd pin).1.model "critic"
             (run_critic_chain env p.output vd pin).1.output
             "Economic stress-test of Presenter's plan"
             (run_critic_chain env p.output vd pin).1.confidence,
           mkRound d.agent d.model "decider" d.output
             "Final synthesis of Presenter + Critic debate" d.confidence],
        final_recommendation := f,
        presenter := p.output,
        critic := (run_critic_chain env p.output vd pin).1.output,
        decider := d.output,
        agents_used := [p.agent, (run_critic_chain env p.output vd pin).1.agent, d.agent],
        critic_model_used := (run_critic_chain env p.output vd pin).1.model } := by
    simp [run_ai_debate, hpep, hded, hff]
  exact ⟨_, hreq, rfl, by simp [mkRound], hft⟩

/-! ## Claim theorems — debate orchestrator and critic chain -/

/-- Fixture: every provider unconfigured or failing. -/
def debateEnvAllFail : DebateEnv :=
  { presenter := .failure, openaiKey := false, gpt4o := .failure,
    groqKey := false, groq := .failure, togetherKey := false, together := .failure,
    geminiCritic := .failure, decider := .failure }

/-- Fixture for the A-fails/B-fails/C-succeeds chain scenario. -/
def debateEnvABC : DebateEnv :=
  { presenter := .failure, openaiKey := true, gpt4o := .failure,
    groqKey := true, groq := .failure, togetherKey := true,
    together := .success "\x7b\"confidence_score\": 71\x7d",
    geminiCritic := .failure, decider := .failure }

/-- **C1** (amended): for well-formed vision data — `products` iterating to
dicts and `top_restock_urgent` joinable when present, which is every value
the vision stage's own contract produces — the Debate Orchestrator never
raises and returns exactly three stage records (presenter, critic, decider,
in that order) plus a final recommendation that is never empty (truthy; in
particular, whenever it is a string it is a non-empty string). -/
theorem run_ai_debate_three_rounds_nonempty :
    ∀ (env : DebateEnv) (vd st : PyDict) (pin : JValue),
      visionOK vd = true →
      ∃ r, run_ai_debate env vd st pin = some r ∧
        r.rounds.length = 3 ∧
        r.rounds.map (·.rtype) = ["presenter", "critic", "decider"] ∧
        pyTruthy r.final_recommendation = true ∧
        (∀ s, r.final_recommendation = .str s → s ≠ "") := by
  intro env vd st pin h
  obtain ⟨r, h1, h2, h3, h4⟩ := run_ai_debate_total env vd st pin h
  refine ⟨r, h1, h2, h3, h4, ?_⟩
  intro s hs hempty
  rw [hs, hempty] at h4
  exact absurd h4 (by decide)

/-- **C1** counterexample: with `vision_data = {"products": 5}` and a failing
presenter provider, `run_ai_debate` raises a `TypeError` inside
`_fallback_presenter` (modelled as `none`) instead of returning three stage
records — the claim's universal quantification over `vision_data` fails. -/
theorem run_ai_debate_malformed_vision_raises :
    run_ai_debate debateEnvAllFail [("products", jnum 5)] [] (.str "110001") = none := by
  rfl

/-- **C1** witness: the amended contract at a concrete environment (all
providers failing, empty vision dict). -/
theorem run_ai_debate_three_rounds_nonempty_witness :
    ∃ r, run_ai_debate debateEnvAllFail [] [] (.str "110001") = some r ∧
      r.rounds.length = 3 ∧
      r.rounds.map (·.rtype) = ["presenter", "critic", "decider"] ∧
      pyTruthy r.final_recommendation = true ∧
      (∀ s, r.final_recommendation = .str s → s ≠ "") :=
  run_ai_debate_three_rounds_nonempty debateEnvAllFail [] [] (.str "110001") (by rfl)

/-- **C3**: the critic fallback chain invokes candidates in the fixed order
GPT-4o Mini → Groq LLaMA → Together Mixtral → Gemini Flash.  First part:
with A and B configured but failing and C succeeding, the chain returns C's
result and its invocation trace is exactly the first three candidates — the
Gemini Flash fallback (D) is never invoked.  Second part: an unconfigured
candidate is skipped without an invocation and without counting as a
failure (A unconfigured, B succeeding: only B is invoked and its result is
returned). -/
theorem critic_chain_order :
    (∀ (env : DebateEnv) (pout : JValue) (vd : PyDict) (pin : JValue) (c : String),
      env.openaiKey = true → env.gpt4o = .failure →
      env.groqKey = true → env.groq = .failure →
      env.togetherKey = true → env.together = .success c →
      (_parse_json c).isObj = true →
      ∃ r, run_critic_together env pout vd pin = some r ∧
        run_critic_chain env pout vd pin =
          (r, ["gpt-4o-mini", "llama-3.1-70b-versatile", "mixtral-8x7b-instruct"])) ∧
    (∀ (env : DebateEnv) (pout : JValue) (vd : PyDict) (pin : JValue) (c : String),
      env.openaiKey = false →
      env.groqKey = true → env.groq = .success c →
      (_parse_json c).isObj = true →
      ∃ r, run_critic_groq env pout vd pin = some r ∧
        run_critic_chain env pout vd pin = (r, ["llama-3.1-70b-versatile"])) := by
  constructor
  · intro env pout vd pin c hok hgf hgk hgr htk hts hobj
    cases hp : _parse_json c with
    | obj kvs =>
      have hres : run_critic_together env pout vd pin = some
          { agent := "Together Mixtral-8x7B", model := "mixtral-8x7b-instruct",
            atype := "critic", output := .obj kvs,
            confidence := objGetD kvs "confidence_score" (jnum 74) } := by
        simp [run_critic_together, htk, hts, hp]
      refine ⟨_, hres, ?_⟩
      unfold run_critic_chain
      simp [hok, hgk, htk, run_critic_gpt4o, run_critic_groq, hgf, hgr, hres]
    | null => rw [hp] at hobj; simp [JValue.isObj] at hobj
    | bool b => rw [hp] at hobj; simp [JValue.isObj] at hobj
    | num q => rw [hp] at hobj; simp [JValue.isObj] at hobj
    | nan => rw [hp] at hobj; simp [JValue.isObj] at hobj
    | inf n => rw [hp] at hobj; simp [JValue.isObj] at hobj
    | str s => rw [hp] at hobj; simp [JValue.isObj] at hobj
    | arr xs => rw [hp] at hobj; simp [JValue.isObj] at hobj
  · intro env pout vd pin c hok hgk hgr hobj
    cases hp : _parse_json c with
    | obj kvs =>
      have hres : run_critic_groq env pout vd pin = some
          { agent := "Groq LLaMA-3.1-70B", model := "llama-3.1-70b-versatile",
            atype := "critic", output := .obj kvs,
            confidence := objGetD kvs "confidence_score" (jnum 76) } := by
        simp [run_critic_groq, hgk, hgr, hp]
      refine ⟨_, hres, ?_⟩
      unfold run_critic_chain
      simp [hok, hgk, hres]
    | null => rw [hp] at hobj; simp [JValue.isObj] at hobj
    | bool b => rw [hp] at hobj; simp [JValue.isObj] at hobj
    | num q => rw [hp] at hobj; simp [JValue.isObj] at hobj
    | nan => rw [hp] at hobj; simp [JValue.isObj] at hobj
    | inf n => rw [hp] at hobj; simp [JValue.isObj] at hobj
    | str s => rw [hp] at hobj; simp [JValue.isObj] at hobj
    | arr xs => rw [hp] at hobj; simp [JValue.isObj] at hobj

/-- **C3** witness: the A-fails/B-fails/C-succeeds scenario at a concrete
environment — the chain returns Together Mixtral's result and never invokes
the Gemini Flash fallback. -/
theorem critic_chain_order_witness :
    ∃ r, run_critic_together debateEnvABC .null [] (.str "110001") = some r ∧
      run_critic_chain debateEnvABC .null [] (.str "110001") =
        (r, ["gpt-4o-mini", "llama-3.1-70b-versatile", "mixtral-8x7b-instruct"]) :=
  critic_chain_order.1 debateEnvABC .null [] (.str "110001")
    "\x7b\"confidence_score\": 71\x7d" rfl rfl rfl rfl rfl rfl (by rfl)

/-- **C4**: when every candidate of the chain is unconfigured or fails
(`run_critic_*` all return `None`) and the Gemini Flash fallback call also
fails, the chain returns the synthesized default critic record — agent
`"Gemini Flash (Critic Fallback)"`, confidence 55 — and, being a total
function of the environment, never raises past the chain boundary. -/
theorem critic_chain_exhausted_default :
    ∀ (env : DebateEnv) (pout : JValue) (vd : PyDict) (pin : JValue),
      run_critic_gpt4o env pout vd pin = none →
      run_critic_groq env pout vd pin = none →
      run_critic_together env pout vd pin = none →
      env.geminiCritic = .failure →
      (run_critic_chain env pout vd pin).1 = defaultCriticResult ∧
      (run_critic_chain env pout vd pin).1.agent = "Gemini Flash (Critic Fallback)" ∧
      (run_critic_chain env pout vd pin).1.confidence = jnum 55 := by
  intro env pout vd pin h1 h2 h3 h4
  unfold run_critic_chain
  cases ho : env.openaiKey <;> cases hg : env.groqKey <;> cases ht : env.togetherKey <;>
    simp [h1, h2, h3, run_critic_gemini_fallback, h4, defaultCriticResult]

/-- **C4** witness: the exhausted chain at a concrete environment. -/
theorem critic_chain_exhausted_default_witness :
    (run_critic_chain debateEnvAllFail .null [] (.str "110001")).1 = defaultCriticResult ∧
    (run_critic_chain debateEnvAllFail .null [] (.str "110001")).1.agent =
      "Gemini Flash (Critic Fallback)" ∧
    (run_critic_chain debateEnvAllFail .null [] (.str "110001")).1.confidence = jnum 55 :=
  critic_chain_exhausted_default debateEnvAllFail .null [] (.str "110001") rfl rfl rfl rfl

/-! ## Claim theorems — response normalizer and health score -/

/-- **C5** counterexample: the input `"1"` parses as the JSON scalar `1`, so
`_parse_json` returns a number, not a mapping — the claim's "returns a
mapping for every input string" fails (Python `json.loads` accepts any
top-level JSON value and the function returns it unchanged). -/
theorem parse_json_scalar_not_mapping :
    _parse_json "1" = jnum 1 ∧ (_parse_json "1").isObj = false := by
  exact ⟨rfl, rfl⟩

/-- **C5** (amended): `_parse_json` is total (never raises) and returns the
parsed JSON value — a mapping whenever the text encodes an object:
(1) the code-fenced example parses to `{"a": 1}`;
(2) when the fence-stripped text parses, that value is returned;
(3) otherwise, when the largest brace-delimited substring parses, that
value is returned;
(4) otherwise the marker object `{"raw": text[:500], "parse_error": true}`
is returned, whose excerpt is the first 500 characters of the
fence-stripped text;
(5) the excerpt is non-empty whenever the fence-stripped text is non-empty. -/
theorem parse_json_normalizer_spec :
    _parse_json "```json\n\x7b\"a\":1\x7d\n```" = .obj [("a", jnum 1)] ∧
    (∀ s v, loads (stripFences s) = some v → _parse_json s = v) ∧
    (∀ s sub v, loads (stripFences s) = none → braceSub (stripFences s) = some sub →
      loads sub = some v → _parse_json s = v) ∧
    (∀ s, loads (stripFences s) = none → (braceSub (stripFences s)).bind loads = none →
      _parse_json s = parseMarker (stripFences s)) ∧
    (∀ s, stripFences s ≠ "" → pyTake 500 (stripFences s) ≠ "") := by
  refine ⟨rfl, ?_, ?_, ?_, ?_⟩
  · intro s v h
    simp [_parse_json, h]
  · intro s sub v h1 h2 h3
    simp [_parse_json, h1, h2, h3]
  · intro s h1 h2
    cases hb : braceSub (stripFences s) with
    | none => simp [_parse_json, h1, hb]
    | some sub =>
      rw [hb] at h2
      simp only [Option.some_bind] at h2
      simp [_parse_json, h1, hb, h2]
  · intro s hne hc
    apply hne
    have hdata : (stripFences s).data.take 500 = [] := congrArg String.data hc
    have hnil : (stripFences s).data = [] := by
      cases hl : (stripFences s).data with
      | nil => rfl
      | cons a t => rw [hl] at hdata; simp at hdata
    exact String.ext (by rw [hnil])

/-- **C5** witness: the amended normalizer contract applied at concrete
inputs — a direct parse and a marker case. -/
theorem parse_json_normalizer_spec_witness :
    _parse_json "\x7b\"k\":2\x7d" = .obj [("k", jnum 2)] ∧
    _parse_json "no json here" = parseMarker (stripFences "no json here") :=
  ⟨parse_json_normalizer_spec.2.1 "\x7b\"k\":2\x7d" (.obj [("k", jnum 2)]) (by rfl),
   parse_json_normalizer_spec.2.2.2.1 "no json here" (by rfl) (by rfl)⟩

/-- The health-score formula as the specification states it:
`floor(70 * ok_or_overstocked/N + 30 * facing_correct/N)` clamped to
`[0, 100]`, and `0` when there are no products. -/
def specHealthScore (ps : List JValue) : Int :=
  if ps.isEmpty then 0
  else
    min 100 (max 0 (Int.floor ((70 * (stockOkCount ps : Rat)) / ps.length
      + (30 * (facingOkCount ps : Rat)) / ps.length)))

/-- Ten products: 7 ok/overstocked, 9 facing-correct. -/
def exProd (sl : String) (fc : Bool) : JValue :=
  .obj [("stock_level", .str sl), ("facing_correct", .bool fc)]

/-- The spec's worked example. -/
def exProducts10 : List JValue :=
  [exProd "ok" true, exProd "ok" true, exProd "ok" true, exProd "ok" true,
   exProd "ok" true, exProd "overstocked" true, exProd "overstocked" true,
   exProd "low" true, exProd "low" true, exProd "critical" false]

/-- The vision dict holding the worked example. -/
def exVision10 : PyDict := [("products", .arr exProducts10)]

/-- **C6**: for every vision result whose `products` is a list of dicts, the
health score equals `floor(70*ok/N + 30*fc/N)` clamped to `[0,100]` (`0`
when `N = 0`), and the worked example — 10 products, 7 ok/overstocked, 9
facing-correct — scores 76. -/
lemma healthArg (a b L : Rat) : a / L * 70 + b / L * 30 = 70 * a / L + 30 * b / L := by
  ring

theorem health_score_formula :
    (∀ (vd : PyDict) (ps : List JValue),
      objGet vd "products" = some (.arr ps) →
      ps.all (·.isObj) = true →
      _calculate_health_score vd = some (specHealthScore ps)) ∧
    _calculate_health_score exVision10 = some 76 := by
  have hmain : ∀ (vd : PyDict) (ps : List JValue),
      objGet vd "products" = some (.arr ps) →
      ps.all (·.isObj) = true →
      _calculate_health_score vd = some (specHealthScore ps) := by
    intro vd ps hg hall
    unfold _calculate_health_score specHealthScore
    rw [objGetD, hg]
    simp only [Option.getD_some]
    cases ps with
    | nil => simp [pyTruthy]
    | cons p rest =>
      simp [pyTruthy, pyIterate, hall]
      rw [healthArg]
  refine ⟨hmain, ?_⟩
  rw [hmain exVision10 exProducts10 rfl (by decide)]
  have hok : stockOkCount exProducts10 = 7 := by decide
  have hfc : facingOkCount exProducts10 = 9 := by decide
  have hlen : exProducts10.length = 10 := by decide
  have hemp : exProducts10.isEmpty = false := by decide
  unfold specHealthScore
  rw [hok, hfc, hlen, hemp]
  norm_num

/-! ## Claim theorems — scan status transitions -/

lemma terminalWrites_append (a b : List DbOp) :
    terminalWrites (a ++ b) = terminalWrites a ++ terminalWrites b := by
  unfold terminalWrites
  exact List.filterMap_append _ _ _

lemma terminalWrites_failOps (env : ScanEnv) :
    terminalWrites (failOps env) = if env.failedUpdateOk then ["failed"] else [] := by
  unfold failOps
  cases h : env.failedUpdateOk <;> simp [terminalWrites]

lemma terminalWrites_productsStep (env : ScanEnv) (vd : PyDict) (ops : List DbOp)
    (h : productsStep env vd = some ops) : terminalWrites ops = [] := by
  unfold productsStep at h
  split at h
  · split at h
    · split at h
      · split at h
        · cases h
          rfl
        · exact absurd h (by simp)
      · exact absurd h (by simp)
    · exact absurd h (by simp)
  · cases h
    rfl

lemma terminalWrites_voiceNote (url : String) (dur : Int) :
    terminalWrites [DbOp.insertVoiceNote url dur] = [] := rfl

lemma terminalWrites_rounds_all (rs : List DebateRoundRec) :
    terminalWrites (rs.map fun r => DbOp.insertRound r.agent r.rtype r.output) = [] := by
  induction rs with
  | nil => rfl
  | cons r t _ => simp [terminalWrites, List.filterMap_cons]

lemma terminalWrites_rounds_take (rs : List DebateRoundRec) (k : Nat) :
    terminalWrites ((rs.map fun r => DbOp.insertRound r.agent r.rtype r.output).take k) = [] := by
  rw [← List.map_take]
  exact terminalWrites_rounds_all _

/-- An error branch writes at most the `failed` marking. -/
lemma failBranch (env : ScanEnv) (pre : List DbOp) (hpre : terminalWrites pre = []) :
    terminalWrites (pre ++ failOps env) = [] ∨
    terminalWrites (pre ++ failOps env) = ["failed"] := by
  rw [terminalWrites_append, hpre, List.nil_append, terminalWrites_failOps]
  cases env.failedUpdateOk <;> simp

/-- **C2** (amended): on every execution path of `scan_shelf` the terminal
status writes on the scan row are one of: none at all (no scan row was
created, or the failure-marking update itself raised), a single `completed`,
a single `failed`, or — only when the post-completion store-stats update
raises — `completed` followed by `failed`.  In particular a scan marked
`failed` is never later marked `completed`, but a `completed` scan can be
re-marked `failed`. -/
theorem scan_terminal_status_writes :
    ∀ env : ScanEnv,
      terminalWrites (scan_shelf env).2 = [] ∨
      terminalWrites (scan_shelf env).2 = ["completed"] ∨
      terminalWrites (scan_shelf env).2 = ["failed"] ∨
      (terminalWrites (scan_shelf env).2 = ["completed", "failed"] ∧
        env.storeUpdateOk = false) := by
  intro env
  unfold scan_shelf
  cases hlk : env.storeLookup with
  | raises => exact Or.inl rfl
  | notFound => exact Or.inl rfl
  | found store =>
    cases hu : env.uploadOk with
    | false => simp only [hu, Bool.not_false, if_true]; exact Or.inl rfl
    | true =>
      simp only [hu, Bool.not_true, Bool.false_eq_true, if_false]
      cases hsi : env.scanInsertOk with
      | false => simp only [Bool.not_false, if_true]; exact Or.inl rfl
      | true =>
        simp only [Bool.not_true, Bool.false_eq_true, if_false]
        cases hv : env.vision with
        | none =>
          dsimp only
          rcases failBranch env [DbOp.insertScan "processing"] rfl with hf | hf
          · exact Or.inl hf
          · exact Or.inr (Or.inr (Or.inl hf))
        | some vd =>
          dsimp only
          cases hps : productsStep env vd with
          | none =>
            dsimp only
            rcases failBranch env [DbOp.insertScan "processing"] rfl with hf | hf
            · exact Or.inl hf
            · exact Or.inr (Or.inr (Or.inl hf))
          | some pOps =>
            dsimp only
            have hpre1 : terminalWrites ([DbOp.insertScan "processing"] ++ pOps) = [] := by
              rw [terminalWrites_append, terminalWrites_productsStep env vd pOps hps]
              rfl
            cases hdb : run_ai_debate env.debate vd store
              (objGetD store "pincode" (.str "")) with
            | none =>
              dsimp only
              rcases failBranch env _ hpre1 with hf | hf
              · exact Or.inl hf
              · exact Or.inr (Or.inr (Or.inl hf))
            | some dres =>
              dsimp only
              cases hrf : env.roundsInsertFailAt with
              | some k =>
                dsimp only
                have hpre2 : terminalWrites (([DbOp.insertScan "processing"] ++ pOps) ++
                    (dres.rounds.map fun r =>
                      DbOp.insertRound r.agent r.rtype r.output).take k.val) = [] := by
                  rw [terminalWrites_append, hpre1, terminalWrites_rounds_take]
                  rfl
                rcases failBranch env _ hpre2 with hf | hf
                · exact Or.inl hf
                · exact Or.inr (Or.inr (Or.inl hf))
              | none =>
                dsimp only
                have hpre3 : terminalWrites (([DbOp.insertScan "processing"] ++ pOps) ++
                    (dres.rounds.map fun r =>
                      DbOp.insertRound r.agent r.rtype r.output)) = [] := by
                  rw [terminalWrites_append, hpre1, terminalWrites_rounds_all]
                  rfl
                cases hvi : env.voiceInsertOk with
                | false =>
                  simp only [Bool.not_false, if_true]
                  rcases failBranch env _ hpre3 with hf | hf
                  · exact Or.inl hf
                  · exact Or.inr (Or.inr (Or.inl hf))
                | true =>
                  simp only [Bool.not_true, Bool.false_eq_true, if_false]
                  have hpre4 : terminalWrites ((([DbOp.insertScan "processing"] ++ pOps) ++
                      (dres.rounds.map fun r =>
                        DbOp.insertRound r.agent r.rtype r.output)) ++
                      [DbOp.insertVoiceNote
                        (generate_hindi_voice env.voice dres.final_recommendation "" 0).1
                        (generate_hindi_voice env.voice dres.final_recommendation "" 0).2]) = [] := by
                    rw [terminalWrites_append, hpre3]
                    rfl
                  cases hhs : _calculate_health_score vd with
                  | none =>
                    dsimp only
                    rcases failBranch env _ hpre4 with hf | hf
                    · exact Or.inl hf
                    · exact Or.inr (Or.inr (Or.inl hf))
                  | some hs =>
                    dsimp only
                    cases hcu : env.completeUpdateOk with
                    | false =>
                      simp only [Bool.not_false, if_true]
                      rcases failBranch env _ hpre4 with hf | hf
                      · exact Or.inl hf
                      · exact Or.inr (Or.inr (Or.inl hf))
                    | true =>
                      simp only [Bool.not_true, Bool.false_eq_true, if_false]
                      cases hsu : env.storeUpdateOk with
                      | false =>
                        simp only [Bool.not_false, if_true]
                        rw [terminalWrites_append, terminalWrites_append, hpre4,
                          terminalWrites_failOps]
                        cases hfu : env.failedUpdateOk with
                        | true =>
                          exact Or.inr (Or.inr (Or.inr ⟨by simp [terminalWrites], by simp [hsu]⟩))
                        | false =>
                          exact Or.inr (Or.inl (by simp [terminalWrites]))
                      | true =>
                        simp only [Bool.not_true, Bool.false_eq_true, if_false]
                        cases hnw : env.neighborhoodWrites with
                        | true =>
                          refine Or.inr (Or.inl ?_)
                          simp only [if_true]
                          rw [terminalWrites_append, terminalWrites_append,
                            terminalWrites_append, hpre4]
                          simp [terminalWrites]
                        | false =>
                          refine Or.inr (Or.inl ?_)
                          simp only [Bool.false_eq_true, if_false]
                          rw [terminalWrites_append, terminalWrites_append,
                            terminalWrites_append, hpre4]
                          simp [terminalWrites]

/-- Fixture: a scan in which every step succeeds except speech synthesis
(the TTS request raises). -/
def scanEnvHappy : ScanEnv :=
  { debate := debateEnvAllFail, voice := .requestExn,
    storeLookup := .found [("pincode", .str "110001")],
    uploadOk := true, scanInsertOk := true, vision := some [],
    productsInsertOk := true, roundsInsertFailAt := none, voiceInsertOk := true,
    completeUpdateOk := true, storeUpdateOk := true, neighborhoodWrites := true,
    failedUpdateOk := true }

/-- Fixture: same as `scanEnvHappy` but the post-completion store-stats
update raises. -/
def scanEnvStoreStatsFail : ScanEnv :=
  { scanEnvHappy with
    storeUpdateOk := false }

/-- **C2** counterexample: when the store-stats update (step 8, after the
scan row was already marked `completed`) raises, the generic `except` block
re-marks the same scan `failed` — the scan's terminal status is written
twice, `completed` then `failed`, refuting "never reverts". -/
theorem scan_completed_then_failed :
    terminalWrites (scan_shelf scanEnvStoreStatsFail).2 = ["completed", "failed"] := by
  rfl

/-! ## Claim theorems — speech-synthesis failure absorption -/

lemma generate_voice_failed (v : VoiceOutcome) (h : voiceFailed v = true) :
    ∀ (t : JValue) (sn : String) (sid : Nat), generate_hindi_voice v t sn sid = ("", 0) := by
  intro t sn sid
  cases v with
  | requestExn => rfl
  | badStatus => rfl
  | audio upload =>
    cases upload with
    | none => cases t <;> rfl
    | some url => simp [voiceFailed] at h

lemma productsStep_isSome (env : ScanEnv) (vd : PyDict)
    (h : productsWellFormed vd = true) (hins : env.productsInsertOk = true) :
    ∃ ops, productsStep env vd = some ops := by
  unfold productsStep
  cases hg : objGet vd "products" with
  | none => simp [objGetD, hg, pyTruthy]
  | some v =>
    simp only [productsWellFormed, hg] at h
    cases hi : pyIterate v with
    | none => simp [hi] at h
    | some items =>
      simp only [hi] at h
      cases ht : pyTruthy v with
      | false => simp [objGetD, hg, ht]
      | true => simp [objGetD, hg, ht, hi, h, hins]

lemma health_isSome (vd : PyDict) (h : productsWellFormed vd = true) :
    ∃ hs, _calculate_health_score vd = some hs := by
  unfold _calculate_health_score
  cases hg : objGet vd "products" with
  | none => simp [objGetD, hg, pyTruthy]
  | some v =>
    simp only [productsWellFormed, hg] at h
    cases hi : pyIterate v with
    | none => simp [hi] at h
    | some items =>
      simp only [hi] at h
      cases ht : pyTruthy v with
      | false => simp [objGetD, hg, ht]
      | true => simp [objGetD, hg, ht, hi, h]

/-- **C7**: when the speech-synthesis stage fails — for any reason: provider
exception, non-200 status, or audio-upload failure — `generate_hindi_voice`
absorbs the failure and returns an empty voice reference and duration 0,
and a scan whose other steps succeed still reaches `completed` (its only
terminal status write), with the empty voice reference persisted in both
the voice-note row and the completion update. -/
theorem voice_failure_scan_completes :
    ∀ (env : ScanEnv) (store vd : PyDict),
      env.storeLookup = .found store →
      env.uploadOk = true →
      env.scanInsertOk = true →
      env.vision = some vd →
      visionOK vd = true →
      env.productsInsertOk = true →
      env.roundsInsertFailAt = none →
      env.voiceInsertOk = true →
      env.completeUpdateOk = true →
      env.storeUpdateOk = true →
      voiceFailed env.voice = true →
      (∀ (t : JValue) (sn : String) (sid : Nat),
        generate_hindi_voice env.voice t sn sid = ("", 0)) ∧
      terminalWrites (scan_shelf env).2 = ["completed"] ∧
      DbOp.insertVoiceNote "" 0 ∈ (scan_shelf env).2 ∧
      (∃ hs, DbOp.updateScanCompleted hs "" ∈ (scan_shelf env).2) := by
  intro env store vd hlk hu hsi hv hwf hpi hrf hvi hcu hsu hvf
  have hvoice := generate_voice_failed env.voice hvf
  have hpw : productsWellFormed vd = true := by
    have h' := hwf
    unfold visionOK at h'
    exact ((Bool.and_eq_true _ _).mp h').1
  obtain ⟨pOps, hps⟩ := productsStep_isSome env vd hpw hpi
  obtain ⟨dres, hdb, _, _, _⟩ := run_ai_debate_total env.debate vd store
    (objGetD store "pincode" (.str "")) hwf
  obtain ⟨hs, hhs⟩ := health_isSome vd hpw
  have hops : (scan_shelf env).2 =
      [DbOp.insertScan "processing"] ++ pOps ++
      (dres.rounds.map fun r => DbOp.insertRound r.agent r.rtype r.output) ++
      [DbOp.insertVoiceNote "" 0] ++ [DbOp.updateScanCompleted hs ""] ++
      [DbOp.updateStoreStats hs] ++
      (if env.neighborhoodWrites then [DbOp.updateNeighborhood] else []) := by
    unfold scan_shelf
    rw [hlk]
    dsimp only
    rw [hv]
    dsimp only
    rw [hps]
    dsimp only
    rw [hdb]
    dsimp only
    rw [hrf]
    dsimp only
    rw [hhs, hu, hsi, hvi, hcu, hsu, hvoice]
    simp
  refine ⟨hvoice, ?_, ?_, ⟨hs, ?_⟩⟩
  · rw [hops]
    rw [terminalWrites_append, terminalWrites_append, terminalWrites_append,
      terminalWrites_append, terminalWrites_append, terminalWrites_append,
      terminalWrites_productsStep env vd pOps hps, terminalWrites_rounds_all]
    cases hnw : env.neighborhoodWrites <;> simp [terminalWrites]
  · rw [hops]
    simp
  · rw [hops]
    simp

/-- **C7** witness: the absorbed voice failure at a concrete environment. -/
theorem voice_failure_scan_completes_witness :
    (∀ (t : JValue) (sn : String) (sid : Nat),
      generate_hindi_voice scanEnvHappy.voice t sn sid = ("", 0)) ∧
    terminalWrites (scan_shelf scanEnvHappy).2 = ["completed"] ∧
    DbOp.insertVoiceNote "" 0 ∈ (scan_shelf scanEnvHappy).2 ∧
    (∃ hs, DbOp.updateScanCompleted hs "" ∈ (scan_shelf scanEnvHappy).2) :=
  voice_failure_scan_completes scanEnvHappy [("pincode", .str "110001")] []
    rfl rfl rfl rfl rfl rfl rfl rfl rfl rfl rfl

/-! ## Claim theorems — webhook fast-ack -/

/-- Fixture: a media-bearing inbound WhatsApp event. -/
def mediaForm : TwilioForm :=
  { From := "whatsapp:+919876543210", NumMedia := 1, Body := "",
    MediaUrl0 := "https://api.twilio.com/media/ME123",
    MediaContentType0 := "image/jpeg" }

/-- **C8** counterexample: the synchronous webhook path performs a
best-effort inbound-message audit insert (main.py lines 575-586) before
returning — an operation beyond event classification on the synchronous
path, refuting that conjunct of the claim. -/
theorem webhook_sync_audit_insert :
    (whatsapp_webhook mediaForm).2.1 = [SyncOp.insertInboundLog] ∧
    (whatsapp_webhook mediaForm).2.1 ≠ [] := by
  have h1 : (whatsapp_webhook mediaForm).2.1 = [SyncOp.insertInboundLog] := rfl
  refine ⟨h1, ?_⟩
  rw [h1]
  simp

/-- **C8** (amended): for every media-bearing inbound event (`NumMedia ≠ 0`
and a media URL present), the synchronous handler returns exactly the fixed
"processing started" TwiML, enqueues the full pipeline as the single
background task, and performs no synchronous operation beyond event
classification and the audit-log insert — in particular no vision, debate,
or speech-synthesis call; the acknowledgment is a constant independent of
any pipeline outcome (the handler takes no pipeline environment at all). -/
theorem webhook_media_fast_ack :
    ∀ form : TwilioForm,
      form.NumMedia ≠ 0 →
      form.MediaUrl0 ≠ "" →
      (whatsapp_webhook form).1 = build_processing_twiml ∧
      (whatsapp_webhook form).2.2 =
        [BgTask.runWhatsappPipeline (strRemoveAll "whatsapp:" form.From)
          form.MediaUrl0 form.MediaContentType0] ∧
      (whatsapp_webhook form).2.1 = [SyncOp.insertInboundLog] := by
  intro form hnm hmu
  have hnm2 : (form.NumMedia == 0) = false := by
    cases hn : form.NumMedia == 0 with
    | false => rfl
    | true => exact absurd (eq_of_beq hn) hnm
  have hmu2 : (form.MediaUrl0 == "") = false := by
    cases hm : form.MediaUrl0 == "" with
    | false => rfl
    | true => exact absurd (eq_of_beq hm) hmu
  refine ⟨?_, ?_, ?_⟩ <;> simp [whatsapp_webhook, hnm2, hmu2]

/-- **C8** witness: the fast-ack contract at a concrete media event. -/
theorem webhook_media_fast_ack_witness :
    (whatsapp_webhook mediaForm).1 = build_processing_twiml ∧
    (whatsapp_webhook mediaForm).2.2 =
      [BgTask.runWhatsappPipeline (strRemoveAll "whatsapp:" mediaForm.From)
        mediaForm.MediaUrl0 mediaForm.MediaContentType0] ∧
    (whatsapp_webhook mediaForm).2.1 = [SyncOp.insertInboundLog] :=
  webhook_media_fast_ack mediaForm (by decide) (by decide)

/-! ## Claim theorems — neighborhood aggregator idempotence -/

lemma foldl_max_init_le (l : List Nat) : ∀ init : Nat, init ≤ l.foldl max init := by
  induction l with
  | nil => intro init; exact Nat.le_refl _
  | cons a t ih => intro init; exact le_trans (Nat.le_max_left init a) (ih (max init a))

lemma mem_le_foldl_max (l : List Nat) (x : Nat) :
    x ∈ l → ∀ init : Nat, x ≤ l.foldl max init := by
  induction l with
  | nil => intro h; cases h
  | cons a t ih =>
    intro h init
    cases h with
    | head => exact le_trans (Nat.le_max_right init x) (foldl_max_init_le t _)
    | tail _ hmem => exact ih hmem _

/-- Rows already in the table never carry the id a fresh insert gets. -/
lemma nid_ne_freshId (db : List NRow) (r : NRow) (hr : r ∈ db) : r.nid ≠ freshId db := by
  intro hEq
  have hle : r.nid ≤ (db.map (·.nid)).foldl max 0 :=
    mem_le_foldl_max _ _ (List.mem_map_of_mem _ hr) 0
  rw [hEq] at hle
  unfold freshId at hle
  omega

/-- **C9**: running `_aggregate_pincode` twice over identical input data for
the same `(pincode, week_start)` key, starting from a table with no row for
that key, (a) leaves exactly one row for the key, (b) makes the second run
update that row in place to the same aggregate values (only its
`updated_at` timestamp moves to the second run's clock) without touching
any other row, and (c) with the same clock reading the second run is the
identity — the idempotence the specification requires. -/
theorem aggregate_pincode_idempotent :
    ∀ (env1 env2 : AggEnv) (pincode city : String) (store_ids : List String)
      (week_start : String) (db : List NRow),
      env1.products = env2.products →
      env1.products ≠ [] →
      db.filter (nKeyMatch pincode week_start) = [] →
      (((_aggregate_pincode env2 pincode city store_ids week_start
          (_aggregate_pincode env1 pincode city store_ids week_start db)).filter
            (nKeyMatch pincode week_start)).length = 1 ∧
       _aggregate_pincode env2 pincode city store_ids week_start
          (_aggregate_pincode env1 pincode city store_ids week_start db) =
        (_aggregate_pincode env1 pincode city store_ids week_start db).map
          (fun r => if nKeyMatch pincode week_start r then
            { r with updated_at := env2.now } else r) ∧
       (env2.now = env1.now →
        _aggregate_pincode env2 pincode city store_ids week_start
            (_aggregate_pincode env1 pincode city store_ids week_start db) =
          _aggregate_pincode env1 pincode city store_ids week_start db)) := by
  intro env1 env2 pincode city sids ws db hprod hne hkey
  have hne1 : env1.products.isEmpty = false := by
    cases hp : env1.products with
    | nil => exact absurd hp hne
    | cons a t => rfl
  have hne2 : env2.products.isEmpty = false := by
    rw [← hprod]; exact hne1
  have hkeyAll : ∀ r ∈ db, ¬ nKeyMatch pincode ws r = true :=
    List.filter_eq_nil_iff.mp hkey
  have hfind1 : db.find? (nKeyMatch pincode ws) = none :=
    List.find?_eq_none.mpr hkeyAll
  have hrun1 : _aggregate_pincode env1 pincode city sids ws db =
      db ++ [{ nid := freshId db, pincode := pincode, city := city, week_start := ws,
               total_stores_scanned := sids.length,
               top_categories := (aggFields env1.products).1,
               stockout_products := (aggFields env1.products).2.1,
               demand_signals := (aggFields env1.products).2.2,
               updated_at := env1.now, created_at := env1.now }] := by
    unfold _aggregate_pincode
    rw [hne1, hfind1]
    rfl
  set newRow : NRow :=
    { nid := freshId db, pincode := pincode, city := city, week_start := ws,
      total_stores_scanned := sids.length,
      top_categories := (aggFields env1.products).1,
      stockout_products := (aggFields env1.products).2.1,
      demand_signals := (aggFields env1.products).2.2,
      updated_at := env1.now, created_at := env1.now } with hnewRow
  have hkeyNew : nKeyMatch pincode ws newRow = true := by
    simp [nKeyMatch, hnewRow]
  have hfind2 : (db ++ [newRow]).find? (nKeyMatch pincode ws) = some newRow := by
    rw [List.find?_append, hfind1]
    simp [List.find?_cons, hkeyNew]
  have hrun2 : _aggregate_pincode env2 pincode city sids ws (db ++ [newRow]) =
      (db ++ [newRow]).map fun r =>
        if r.nid == newRow.nid then
          { r with pincode := pincode, city := city, week_start := ws,
                   total_stores_scanned := sids.length,
                   top_categories := (aggFields env2.products).1,
                   stockout_products := (aggFields env2.products).2.1,
                   demand_signals := (aggFields env2.products).2.2,
                   updated_at := env2.now }
        else r := by
    unfold _aggregate_pincode
    rw [hne2, hfind2]
    rfl
  have hmapEq : ((db ++ [newRow]).map fun r =>
        if r.nid == newRow.nid then
          { r with pincode := pincode, city := city, week_start := ws,
                   total_stores_scanned := sids.length,
                   top_categories := (aggFields env2.products).1,
                   stockout_products := (aggFields env2.products).2.1,
                   demand_signals := (aggFields env2.products).2.2,
                   updated_at := env2.now }
        else r) =
      (db ++ [newRow]).map fun r =>
        if nKeyMatch pincode ws r then { r with updated_at := env2.now } else r := by
    apply List.map_congr_left
    intro r hr
    rw [List.mem_append] at hr
    cases hr with
    | inl hin =>
      have hnid : (r.nid == newRow.nid) = false := by
        have := nid_ne_freshId db r hin
        simp [hnewRow]
        exact this
      have hnk : nKeyMatch pincode ws r = false := by
        have := hkeyAll r hin
        cases h2 : nKeyMatch pincode ws r with
        | false => rfl
        | true => exact absurd h2 this
      rw [hnid, hnk]
      simp
    | inr hin =>
      have hr2 : r = newRow := by simpa using hin
      subst hr2
      rw [hkeyNew]
      simp only [beq_self_eq_true, if_true]
      rw [← hprod]
  refine ⟨?_, ?_, ?_⟩
  · rw [hrun1, hrun2, hmapEq, List.map_append, List.filter_append]
    have hdbmap : db.map (fun r =>
        if nKeyMatch pincode ws r then { r with updated_at := env2.now } else r) = db := by
      have : ∀ r ∈ db, (if nKeyMatch pincode ws r then
          { r with updated_at := env2.now } else r) = r := by
        intro r hin
        have hnk : nKeyMatch pincode ws r = false := by
          have := hkeyAll r hin
          cases h2 : nKeyMatch pincode ws r with
          | false => rfl
          | true => exact absurd h2 this
        rw [hnk]
        simp
      calc db.map _ = db.map id := List.map_congr_left this
        _ = db := List.map_id db
    rw [hdbmap, hkey]
    simp [hkeyNew, nKeyMatch]
  · rw [hrun1, hrun2, hmapEq]
  · intro hnow
    rw [hrun1, hrun2, hmapEq]
    have : ∀ r ∈ db ++ [newRow], (if nKeyMatch pincode ws r then
        { r with updated_at := env2.now } else r) = r := by
      intro r hin
      rw [List.mem_append] at hin
      cases hin with
      | inl hin =>
        have hnk : nKeyMatch pincode ws r = false := by
          have := hkeyAll r hin
          cases h2 : nKeyMatch pincode ws r with
          | false => rfl
          | true => exact absurd h2 this
        rw [hnk]
        simp
      | inr hin =>
        have hr2 : r = newRow := by simpa using hin
        subst hr2
        rw [hkeyNew]
        simp only [if_true]
        rw [hnow]
    calc (db ++ [newRow]).map _ = (db ++ [newRow]).map id := List.map_congr_left this
      _ = db ++ [newRow] := List.map_id _

/-- **C9** witness: idempotence at a concrete one-product window over an
empty table. -/
theorem aggregate_pincode_idempotent_witness :
    (((_aggregate_pincode ⟨[⟨"Tata Salt", "Tata", "Staples", "critical", "s1"⟩], "t2"⟩
        "110001" "Delhi" ["s1"] "2026-10-06"
        (_aggregate_pincode ⟨[⟨"Tata Salt", "Tata", "Staples", "critical", "s1"⟩], "t1"⟩
          "110001" "Delhi" ["s1"] "2026-10-06" [])).filter
            (nKeyMatch "110001" "2026-10-06")).length = 1 ∧
     _aggregate_pincode ⟨[⟨"Tata Salt", "Tata", "Staples", "critical", "s1"⟩], "t2"⟩
        "110001" "Delhi" ["s1"] "2026-10-06"
        (_aggregate_pincode ⟨[⟨"Tata Salt", "Tata", "Staples", "critical", "s1"⟩], "t1"⟩
          "110001" "Delhi" ["s1"] "2026-10-06" []) =
      (_aggregate_pincode ⟨[⟨"Tata Salt", "Tata", "Staples", "critical", "s1"⟩], "t1"⟩
          "110001" "Delhi" ["s1"] "2026-10-06" []).map
        (fun r => if nKeyMatch "110001" "2026-10-06" r then
          { r with updated_at := "t2" } else r) ∧
     ("t2" = "t1" →
      _aggregate_pincode ⟨[⟨"Tata Salt", "Tata", "Staples", "critical", "s1"⟩], "t2"⟩
          "110001" "Delhi" ["s1"] "2026-10-06"
          (_aggregate_pincode ⟨[⟨"Tata Salt", "Tata", "Staples", "critical", "s1"⟩], "t1"⟩
            "110001" "Delhi" ["s1"] "2026-10-06" []) =
        _aggregate_pincode ⟨[⟨"Tata Salt", "Tata", "Staples", "critical", "s1"⟩], "t1"⟩
          "110001" "Delhi" ["s1"] "2026-10-06" [])) :=
  aggregate_pincode_idempotent
    ⟨[⟨"Tata Salt", "Tata", "Staples", "critical", "s1"⟩], "t1"⟩
    ⟨[⟨"Tata Salt", "Tata", "Staples", "critical", "s1"⟩], "t2"⟩
    "110001" "Delhi" ["s1"] "2026-10-06" [] rfl (by simp) rfl

/-- **C6** witness: the formula hypothesis holds at the worked example. -/
theorem health_score_formula_witness :
    _calculate_health_score exVision10 = some (specHealthScore exProducts10) :=
  health_score_formula.1 exVision10 exProducts10 rfl (by decide)

/-! ## Claim theorems — registration validation -/

/-- **C10**: the 9-digit example is indeed rejected with no writes, but the
guard is not "exactly 6 digits": because `re.match` lets `$` also match just
before a single trailing newline, the 7-character pincode "123456\n" — not
exactly six digits — passes `validate_pincode` and `register_store` writes
both a `stores` row and a `neighborhood_demand` row for it. -/
theorem pincode_newline_accepted :
    register_store ⟨false, false⟩ ⟨"+919876543210", "110001123"⟩ =
      (RegResult.validationError, []) ∧
    sixDigitCore "123456\n".toList = false ∧
    validate_pincode "123456\n" = some "123456\n" ∧
    register_store ⟨false, false⟩ ⟨"+919876543210", "123456\n"⟩ =
      (RegResult.created, [RegWrite.insertStore, RegWrite.insertNeighborhood]) :=
  ⟨rfl, rfl, rfl, rfl⟩
